import Mathlib

/-!
A shallow embedding of the `citp` crate's protocol codecs.

This development embeds the byte-level encoders (`WriteToBytes`), decoders
(`ReadFromBytes`) and size functions (`SizeBytes`) of the `citp` crate, together
with the demo example's TCP frame reader (`CitpTcp::read_message`) and session
state machine steps (`main`'s `State::Connect` / `State::Request` handling).

Conventions of the embedding:

* A byte stream is a `List Nat`; every encoder emits values `< 256`.
* All multi-byte integers are little-endian, matching `byteorder::LE`.
* Rust `io::Result` decoding failure (`UnexpectedEof` etc.) is `DResult.eofErr`;
  a Rust `panic!`/`unreachable!`/out-of-bounds index is `DResult.panicked`.
* `f32` fields are modelled by their 4-byte little-endian bit patterns
  (a `Nat < 2^32`), matching `write_f32::<LE>` / `read_f32::<LE>` which
  round-trip the bit pattern exactly.
* Rust numeric casts `as u16` / `as u8` are `% 65536` / `% 256`; these appear
  exactly where the source casts.
-/

namespace Citp

/-- Result of running a decoder on a byte list: success with the decoded value
and the remaining bytes, an `io::Error` (e.g. `UnexpectedEof`), or a Rust
panic (`unreachable!`, slice index out of bounds, ...). -/
inductive DResult (α : Type) : Type where
  | ok : α → List Nat → DResult α
  | eofErr : DResult α
  | panicked : DResult α
deriving DecidableEq

/-- Sequencing of decoders, mirroring Rust's `?` on `io::Result`. -/
def DResult.bind {α β : Type} : DResult α → (α → List Nat → DResult β) → DResult β
  | .ok a rest, f => f a rest
  | .eofErr, _ => .eofErr
  | .panicked, _ => .panicked

@[simp]
theorem DResult.bind_ok {α β : Type} (a : α) (rest : List Nat)
    (f : α → List Nat → DResult β) : DResult.bind (.ok a rest) f = f a rest := rfl

@[simp]
theorem DResult.bind_eofErr {α β : Type} (f : α → List Nat → DResult β) :
    DResult.bind (.eofErr : DResult α) f = .eofErr := rfl

@[simp]
theorem DResult.bind_panicked {α β : Type} (f : α → List Nat → DResult β) :
    DResult.bind (.panicked : DResult α) f = .panicked := rfl

/-- `WriteBytesExt::write_u8`: `n as u8` is one byte. -/
def writeU8 (n : Nat) : List Nat := [n % 256]

/-- `WriteBytesExt::write_u16::<LE>`. -/
def writeU16le (n : Nat) : List Nat := [n % 256, n / 256 % 256]

/-- `WriteBytesExt::write_u32::<LE>`. -/
def writeU32le (n : Nat) : List Nat :=
  [n % 256, n / 256 % 256, n / 65536 % 256, n / 16777216 % 256]

/-- `ReadBytesExt::read_u8`. -/
def readU8 : List Nat → DResult Nat
  | [] => .eofErr
  | b :: rest => .ok b rest

/-- `ReadBytesExt::read_u16::<LE>`. -/
def readU16le : List Nat → DResult Nat
  | b0 :: b1 :: rest => .ok (b0 + b1 * 256) rest
  | _ => .eofErr

/-- `ReadBytesExt::read_u32::<LE>`. -/
def readU32le : List Nat → DResult Nat
  | b0 :: b1 :: b2 :: b3 :: rest =>
      .ok (b0 + b1 * 256 + b2 * 65536 + b3 * 16777216) rest
  | _ => .eofErr

@[simp]
theorem readU8_writeU8 (n : Nat) (h : n < 256) (rest : List Nat) :
    readU8 (writeU8 n ++ rest) = .ok n rest := by
  simp [readU8, writeU8, Nat.mod_eq_of_lt h]

@[simp]
theorem readU16le_writeU16le (n : Nat) (h : n < 65536) (rest : List Nat) :
    readU16le (writeU16le n ++ rest) = .ok n rest := by
  simp only [readU16le, writeU16le, List.cons_append, List.nil_append]
  congr 1
  omega

@[simp]
theorem readU32le_writeU32le (n : Nat) (h : n < 4294967296) (rest : List Nat) :
    readU32le (writeU32le n ++ rest) = .ok n rest := by
  simp only [readU32le, writeU32le, List.cons_append, List.nil_append]
  congr 1
  omega

theorem writeU16le_length (n : Nat) : (writeU16le n).length = 2 := rfl

theorem writeU32le_length (n : Nat) : (writeU32le n).length = 4 := rfl

/-- `impl WriteToBytes for CString`: the content bytes followed by the
terminating nul.  A `CString`'s content is modelled as the list of its
non-nul bytes. -/
def writeCString (s : List Nat) : List Nat := s ++ [0]

/-- `impl ReadFromBytes for CString`: read bytes until the first `0`. -/
def readCString : List Nat → DResult (List Nat)
  | [] => .eofErr
  | b :: rest =>
      if b = 0 then .ok [] rest
      else
        match readCString rest with
        | .ok s r => .ok (b :: s) r
        | .eofErr => .eofErr
        | .panicked => .panicked

/-- `impl SizeBytes for CString`: `as_bytes_with_nul().len()`. -/
def cStringSizeBytes (s : List Nat) : Nat := s.length + 1

/-- A valid `CString` content: no interior nul bytes, all in `u8` range. -/
def cStringWf (s : List Nat) : Prop := ∀ b ∈ s, 0 < b ∧ b < 256

instance (s : List Nat) : Decidable (cStringWf s) := by
  unfold cStringWf; infer_instance

theorem readCString_writeCString (s : List Nat) (h : cStringWf s) (rest : List Nat) :
    readCString (writeCString s ++ rest) = .ok s rest := by
  induction s with
  | nil => simp [writeCString, readCString]
  | cons b tl ih =>
      have hb := h b (by simp)
      have htl : cStringWf tl := fun x hx => h x (by simp [hx])
      simp only [writeCString] at ih ⊢
      simp only [List.cons_append, readCString]
      rw [if_neg (by omega)]
      rw [show (tl.append [0]).append rest = tl ++ [0] ++ rest by simp]
      rw [ih htl]

/-- Modelled from the spec: the crate's `Ucs2` wide-string type is referenced
from `protocol::caex` but its definition is not among the provided source
files.  Per the spec (§3, "Wide-text fields"), a `Ucs2` value is a sequence of
2-byte code units whose length on the wire is given by an explicit element
count rather than a terminator.  We model the value as the list of its 16-bit
code units and the wire form as a `u16` element count followed by the units in
little-endian order. -/
def writeUcs2 (units : List Nat) : List Nat :=
  writeU16le units.length ++ units.flatMap writeU16le

/-- Modelled from the spec: decoder matching `writeUcs2` (explicit element
count, then that many 2-byte units). -/
def readUcs2units : Nat → List Nat → DResult (List Nat)
  | 0, bs => .ok [] bs
  | n + 1, bs =>
      DResult.bind (readU16le bs) fun u rest =>
        DResult.bind (readUcs2units n rest) fun us rest2 => .ok (u :: us) rest2

/-- Modelled from the spec: `Ucs2::read_from_bytes`. -/
def readUcs2 (bs : List Nat) : DResult (List Nat) :=
  DResult.bind (readU16le bs) fun count rest => readUcs2units count rest

/-- Modelled from the spec: `Ucs2::size_bytes` — count prefix plus two bytes
per code unit. -/
def ucs2SizeBytes (units : List Nat) : Nat := 2 + 2 * units.length

/-- A valid `Ucs2` value: every unit fits in 16 bits and the unit count fits
the count prefix. -/
def ucs2Wf (units : List Nat) : Prop :=
  units.length < 65536 ∧ ∀ u ∈ units, u < 65536

instance (units : List Nat) : Decidable (ucs2Wf units) := by
  unfold ucs2Wf; infer_instance

theorem readUcs2units_roundtrip (units : List Nat) (h : ∀ u ∈ units, u < 65536)
    (rest : List Nat) :
    readUcs2units units.length (units.flatMap writeU16le ++ rest) = .ok units rest := by
  induction units with
  | nil => simp [readUcs2units]
  | cons u tl ih =>
      simp only [List.length_cons, List.flatMap_cons, readUcs2units, List.append_assoc]
      rw [readU16le_writeU16le u (h u (by simp))]
      simp only [DResult.bind_ok]
      rw [ih (fun x hx => h x (by simp [hx]))]
      rfl

theorem readUcs2_writeUcs2 (units : List Nat) (h : ucs2Wf units) (rest : List Nat) :
    readUcs2 (writeUcs2 units ++ rest) = .ok units rest := by
  unfold readUcs2 writeUcs2
  rw [List.append_assoc, readU16le_writeU16le _ h.1]
  simp only [DResult.bind_ok]
  exact readUcs2units_roundtrip units h.2 rest

/-- `protocol::read_new_vec`: read `len` elements with the element decoder. -/
def readN {α : Type} (read1 : List Nat → DResult α) : Nat → List Nat → DResult (List α)
  | 0, bs => .ok [] bs
  | n + 1, bs =>
      DResult.bind (read1 bs) fun a rest =>
        DResult.bind (readN read1 n rest) fun as rest2 => .ok (a :: as) rest2

theorem readN_roundtrip {α : Type} (read1 : List Nat → DResult α)
    (write1 : α → List Nat) (l : List α)
    (h : ∀ a ∈ l, ∀ r : List Nat, read1 (write1 a ++ r) = .ok a r) (rest : List Nat) :
    readN read1 l.length (l.flatMap write1 ++ rest) = .ok l rest := by
  induction l with
  | nil => simp [readN]
  | cons a tl ih =>
      simp only [List.length_cons, List.flatMap_cons, readN, List.append_assoc]
      rw [h a (by simp)]
      simp only [DResult.bind_ok]
      rw [ih (fun x hx r => h x (by simp [hx]) r)]
      rfl

theorem flatMap_length_const {α : Type} (f : α → List Nat) (k : Nat) (l : List α)
    (h : ∀ a ∈ l, (f a).length = k) : (l.flatMap f).length = l.length * k := by
  induction l with
  | nil => simp
  | cons a tl ih =>
      simp only [List.flatMap_cons, List.length_append, List.length_cons]
      rw [h a (by simp), ih (fun x hx => h x (by simp [hx]))]
      ring

/-! ## The base CITP header (`protocol::Header`, `protocol::Kind`)

The `Kind` union holds a single `u16` that is written and read as the
`request_index` variant; we model it by that 16-bit value directly. -/

/-- `protocol::Header`. -/
structure Header where
  cookie : Nat
  versionMajor : Nat
  versionMinor : Nat
  /-- The `Kind` union's single 16-bit value (`request_index` / `in_response_to`). -/
  requestIndex : Nat
  messageSize : Nat
  messagePartCount : Nat
  messagePart : Nat
  contentType : Nat
deriving DecidableEq

/-- `impl WriteToBytes for Header` (via `impl WriteToBytes for Kind` for the
`kind` field). -/
def Header.writeToBytes (h : Header) : List Nat :=
  writeU32le h.cookie ++ writeU8 h.versionMajor ++ writeU8 h.versionMinor ++
    writeU16le h.requestIndex ++ writeU32le h.messageSize ++
    writeU16le h.messagePartCount ++ writeU16le h.messagePart ++
    writeU32le h.contentType

/-- `impl ReadFromBytes for Header` (via `impl ReadFromBytes for Kind`). -/
def Header.readFromBytes (bs : List Nat) : DResult Header :=
  DResult.bind (readU32le bs) fun cookie r1 =>
  DResult.bind (readU8 r1) fun vmaj r2 =>
  DResult.bind (readU8 r2) fun vmin r3 =>
  DResult.bind (readU16le r3) fun kind r4 =>
  DResult.bind (readU32le r4) fun msize r5 =>
  DResult.bind (readU16le r5) fun pcount r6 =>
  DResult.bind (readU16le r6) fun part r7 =>
  DResult.bind (readU32le r7) fun ctype r8 =>
  .ok ⟨cookie, vmaj, vmin, kind, msize, pcount, part, ctype⟩ r8

/-- `impl SizeBytes for Header`: `mem::size_of::<Header>()`.  With `repr(C)`
the fields (u32, u8, u8, u16, u32, u16, u16, u32) are laid out without padding:
offsets 0,4,5,6,8,12,14,16 and total size 20. -/
def Header.sizeBytes (_ : Header) : Nat := 20

/-- All fields of a `Header` are in range of their Rust integer types. -/
def Header.wf (h : Header) : Prop :=
  h.cookie < 4294967296 ∧ h.versionMajor < 256 ∧ h.versionMinor < 256 ∧
    h.requestIndex < 65536 ∧ h.messageSize < 4294967296 ∧
    h.messagePartCount < 65536 ∧ h.messagePart < 65536 ∧
    h.contentType < 4294967296

instance (h : Header) : Decidable h.wf := by
  unfold Header.wf; infer_instance

theorem header_roundtrip (h : Header) (hwf : h.wf) (rest : List Nat) :
    Header.readFromBytes (h.writeToBytes ++ rest) = .ok h rest := by
  obtain ⟨h1, h2, h3, h4, h5, h6, h7, h8⟩ := hwf
  unfold Header.readFromBytes Header.writeToBytes
  simp only [List.append_assoc]
  rw [readU32le_writeU32le _ h1]
  simp only [DResult.bind_ok]
  rw [readU8_writeU8 _ h2]
  simp only [DResult.bind_ok]
  rw [readU8_writeU8 _ h3]
  simp only [DResult.bind_ok]
  rw [readU16le_writeU16le _ h4]
  simp only [DResult.bind_ok]
  rw [readU32le_writeU32le _ h5]
  simp only [DResult.bind_ok]
  rw [readU16le_writeU16le _ h6]
  simp only [DResult.bind_ok]
  rw [readU16le_writeU16le _ h7]
  simp only [DResult.bind_ok]
  rw [readU32le_writeU32le _ h8]
  rfl

theorem readN_readU16le (l : List Nat) (h : ∀ a ∈ l, a < 65536) (rest : List Nat) :
    readN readU16le l.length (l.flatMap writeU16le ++ rest) = .ok l rest :=
  readN_roundtrip readU16le writeU16le l (fun a ha r => readU16le_writeU16le a (h a ha) r) rest

theorem readN_readU8 (l : List Nat) (h : ∀ a ∈ l, a < 256) (rest : List Nat) :
    readN readU8 l.length (l.flatMap writeU8 ++ rest) = .ok l rest :=
  readN_roundtrip readU8 writeU8 l (fun a ha r => readU8_writeU8 a (h a ha) r) rest

theorem readN_readU32le (l : List Nat) (h : ∀ a ∈ l, a < 4294967296) (rest : List Nat) :
    readN readU32le l.length (l.flatMap writeU32le ++ rest) = .ok l rest :=
  readN_roundtrip readU32le writeU32le l (fun a ha r => readU32le_writeU32le a (h a ha) r) rest

end Citp

/-! ## `protocol::sdmx` -/

namespace Citp.Sdmx

/-- `sdmx::Capa`. -/
structure Capa where
  capabilities : List Nat
deriving DecidableEq

/-- `impl WriteToBytes for Capa`: rejects a capability list longer than
`u16::MAX` with an `io::Error` (`none`) before writing anything. -/
def Capa.writeToBytes (c : Capa) : Option (List Nat) :=
  if c.capabilities.length > 65535 then none
  else some (writeU16le c.capabilities.length ++ c.capabilities.flatMap writeU16le)

/-- `impl ReadFromBytes for Capa`. -/
def Capa.readFromBytes (bs : List Nat) : DResult Capa :=
  DResult.bind (readU16le bs) fun count rest =>
    DResult.bind (readN readU16le count rest) fun caps rest2 => .ok ⟨caps⟩ rest2

/-- `impl SizeBytes for Capa`. -/
def Capa.sizeBytes (c : Capa) : Nat := 2 + c.capabilities.length * 2

def Capa.wf (c : Capa) : Prop :=
  c.capabilities.length ≤ 65535 ∧ ∀ x ∈ c.capabilities, x < 65536

instance (c : Capa) : Decidable c.wf := by
  unfold Capa.wf; infer_instance

theorem capa_roundtrip (c : Capa) (h : c.wf) (rest : List Nat) :
    c.writeToBytes = some (writeU16le c.capabilities.length ++
        c.capabilities.flatMap writeU16le) ∧
      Capa.readFromBytes ((writeU16le c.capabilities.length ++
        c.capabilities.flatMap writeU16le) ++ rest) = .ok c rest := by
  obtain ⟨h1, h2⟩ := h
  refine ⟨by simp [Capa.writeToBytes, Nat.not_lt_of_le h1], ?_⟩
  unfold Capa.readFromBytes
  rw [List.append_assoc, readU16le_writeU16le _ (by omega)]
  simp only [DResult.bind_ok]
  rw [readN_readU16le _ h2]
  rfl

/-- `sdmx::UNam`. -/
structure UNam where
  universeIndex : Nat
  universeName : List Nat
deriving DecidableEq

/-- `impl WriteToBytes for UNam`. -/
def UNam.writeToBytes (v : UNam) : List Nat :=
  writeU8 v.universeIndex ++ writeCString v.universeName

/-- `impl ReadFromBytes for UNam`. -/
def UNam.readFromBytes (bs : List Nat) : DResult UNam :=
  DResult.bind (readU8 bs) fun ui r1 =>
    DResult.bind (readCString r1) fun name r2 => .ok ⟨ui, name⟩ r2

/-- `impl SizeBytes for UNam`. -/
def UNam.sizeBytes (v : UNam) : Nat := 1 + cStringSizeBytes v.universeName

def UNam.wf (v : UNam) : Prop := v.universeIndex < 256 ∧ cStringWf v.universeName

theorem unam_roundtrip (v : UNam) (h : v.wf) (rest : List Nat) :
    UNam.readFromBytes (v.writeToBytes ++ rest) = .ok v rest := by
  unfold UNam.readFromBytes UNam.writeToBytes
  rw [List.append_assoc, readU8_writeU8 _ h.1]
  simp only [DResult.bind_ok]
  rw [readCString_writeCString _ h.2]
  rfl

/-- `sdmx::EnId`. -/
structure EnId where
  identifier : List Nat
deriving DecidableEq

/-- `impl WriteToBytes for EnId`. -/
def EnId.writeToBytes (v : EnId) : List Nat := writeCString v.identifier

/-- `impl ReadFromBytes for EnId`. -/
def EnId.readFromBytes (bs : List Nat) : DResult EnId :=
  DResult.bind (readCString bs) fun s r => .ok ⟨s⟩ r

/-- `impl SizeBytes for EnId`. -/
def EnId.sizeBytes (v : EnId) : Nat := cStringSizeBytes v.identifier

def EnId.wf (v : EnId) : Prop := cStringWf v.identifier

theorem enid_roundtrip (v : EnId) (h : v.wf) (rest : List Nat) :
    EnId.readFromBytes (v.writeToBytes ++ rest) = .ok v rest := by
  unfold EnId.readFromBytes EnId.writeToBytes
  rw [readCString_writeCString _ h]
  rfl

/-- `sdmx::ChBk`. -/
structure ChBk where
  blind : Nat
  universeIndex : Nat
  firstChannel : Nat
  channelLevels : List Nat
deriving DecidableEq

/-- `impl WriteToBytes for ChBk` (`channel_levels.len() as _` is a `u16` cast). -/
def ChBk.writeToBytes (v : ChBk) : List Nat :=
  writeU8 v.blind ++ writeU8 v.universeIndex ++ writeU16le v.firstChannel ++
    writeU16le v.channelLevels.length ++ v.channelLevels.flatMap writeU8

/-- `impl ReadFromBytes for ChBk`. -/
def ChBk.readFromBytes (bs : List Nat) : DResult ChBk :=
  DResult.bind (readU8 bs) fun blind r1 =>
  DResult.bind (readU8 r1) fun ui r2 =>
  DResult.bind (readU16le r2) fun fc r3 =>
  DResult.bind (readU16le r3) fun count r4 =>
  DResult.bind (readN readU8 count r4) fun lvls r5 => .ok ⟨blind, ui, fc, lvls⟩ r5

/-- `impl SizeBytes for ChBk`. -/
def ChBk.sizeBytes (v : ChBk) : Nat := 1 + 1 + 2 + 2 + v.channelLevels.length

def ChBk.wf (v : ChBk) : Prop :=
  v.blind < 256 ∧ v.universeIndex < 256 ∧ v.firstChannel < 65536 ∧
    v.channelLevels.length < 65536 ∧ ∀ x ∈ v.channelLevels, x < 256

theorem chbk_roundtrip (v : ChBk) (h : v.wf) (rest : List Nat) :
    ChBk.readFromBytes (v.writeToBytes ++ rest) = .ok v rest := by
  obtain ⟨h1, h2, h3, h4, h5⟩ := h
  unfold ChBk.readFromBytes ChBk.writeToBytes
  simp only [List.append_assoc]
  rw [readU8_writeU8 _ h1]
  simp only [DResult.bind_ok]
  rw [readU8_writeU8 _ h2]
  simp only [DResult.bind_ok]
  rw [readU16le_writeU16le _ h3]
  simp only [DResult.bind_ok]
  rw [readU16le_writeU16le _ h4]
  simp only [DResult.bind_ok]
  rw [readN_readU8 _ h5]
  rfl

/-- `sdmx::ChannelLevel`. -/
structure ChannelLevel where
  universeIndex : Nat
  channel : Nat
  channelLevel : Nat
deriving DecidableEq

/-- `impl WriteToBytes for ChannelLevel`: emits exactly 4 bytes. -/
def ChannelLevel.writeToBytes (v : ChannelLevel) : List Nat :=
  writeU8 v.universeIndex ++ writeU16le v.channel ++ writeU8 v.channelLevel

/-- `impl ReadFromBytes for ChannelLevel`. -/
def ChannelLevel.readFromBytes (bs : List Nat) : DResult ChannelLevel :=
  DResult.bind (readU8 bs) fun ui r1 =>
  DResult.bind (readU16le r1) fun ch r2 =>
  DResult.bind (readU8 r2) fun lvl r3 => .ok ⟨ui, ch, lvl⟩ r3

def ChannelLevel.wf (v : ChannelLevel) : Prop :=
  v.universeIndex < 256 ∧ v.channel < 65536 ∧ v.channelLevel < 256

theorem channelLevel_roundtrip (v : ChannelLevel) (h : v.wf) (rest : List Nat) :
    ChannelLevel.readFromBytes (v.writeToBytes ++ rest) = .ok v rest := by
  obtain ⟨h1, h2, h3⟩ := h
  unfold ChannelLevel.readFromBytes ChannelLevel.writeToBytes
  simp only [List.append_assoc]
  rw [readU8_writeU8 _ h1]
  simp only [DResult.bind_ok]
  rw [readU16le_writeU16le _ h2]
  simp only [DResult.bind_ok]
  rw [readU8_writeU8 _ h3]
  rfl

/-- `sdmx::ChLs`. -/
structure ChLs where
  channelLevels : List ChannelLevel
deriving DecidableEq

/-- `impl WriteToBytes for ChLs` (`channel_levels.len() as _` is a `u16` cast). -/
def ChLs.writeToBytes (v : ChLs) : List Nat :=
  writeU16le v.channelLevels.length ++ v.channelLevels.flatMap ChannelLevel.writeToBytes

/-- `impl ReadFromBytes for ChLs`. -/
def ChLs.readFromBytes (bs : List Nat) : DResult ChLs :=
  DResult.bind (readU16le bs) fun count rest =>
    DResult.bind (readN ChannelLevel.readFromBytes count rest) fun lvls r2 =>
      .ok ⟨lvls⟩ r2

/-- `impl SizeBytes for ChLs`: `size_of::<u16>() +
len * size_of::<ChannelLevel>()`.  `ChannelLevel` is `repr(C)` with fields
(u8, u16, u8), so its in-memory size is 6 (offsets 0, 2, 4 plus one trailing
padding byte for 2-byte alignment) — although its encoder emits only 4 bytes
per element. -/
def ChLs.sizeBytes (v : ChLs) : Nat := 2 + v.channelLevels.length * 6

def ChLs.wf (v : ChLs) : Prop :=
  v.channelLevels.length < 65536 ∧ ∀ x ∈ v.channelLevels, x.wf

theorem chls_roundtrip (v : ChLs) (h : v.wf) (rest : List Nat) :
    ChLs.readFromBytes (v.writeToBytes ++ rest) = .ok v rest := by
  obtain ⟨h1, h2⟩ := h
  unfold ChLs.readFromBytes ChLs.writeToBytes
  rw [List.append_assoc, readU16le_writeU16le _ h1]
  simp only [DResult.bind_ok]
  rw [readN_roundtrip ChannelLevel.readFromBytes ChannelLevel.writeToBytes _
    (fun a ha r => channelLevel_roundtrip a (h2 a ha) r)]
  rfl

/-- `sdmx::SXSr`. -/
structure SXSr where
  connectionString : List Nat
deriving DecidableEq

/-- `impl WriteToBytes for SXSr`. -/
def SXSr.writeToBytes (v : SXSr) : List Nat := writeCString v.connectionString

/-- `impl ReadFromBytes for SXSr`. -/
def SXSr.readFromBytes (bs : List Nat) : DResult SXSr :=
  DResult.bind (readCString bs) fun s r => .ok ⟨s⟩ r

def SXSr.wf (v : SXSr) : Prop := cStringWf v.connectionString

theorem sxsr_roundtrip (v : SXSr) (h : v.wf) (rest : List Nat) :
    SXSr.readFromBytes (v.writeToBytes ++ rest) = .ok v rest := by
  unfold SXSr.readFromBytes SXSr.writeToBytes
  rw [readCString_writeCString _ h]
  rfl

/-- `sdmx::Sxus`. -/
structure Sxus where
  universeIndex : Nat
  connectionString : List Nat
deriving DecidableEq

/-- `impl WriteToBytes for Sxus`. -/
def Sxus.writeToBytes (v : Sxus) : List Nat :=
  writeU8 v.universeIndex ++ writeCString v.connectionString

/-- `impl ReadFromBytes for Sxus`. -/
def Sxus.readFromBytes (bs : List Nat) : DResult Sxus :=
  DResult.bind (readU8 bs) fun ui r1 =>
    DResult.bind (readCString r1) fun s r2 => .ok ⟨ui, s⟩ r2

def Sxus.wf (v : Sxus) : Prop := v.universeIndex < 256 ∧ cStringWf v.connectionString

theorem sxus_roundtrip (v : Sxus) (h : v.wf) (rest : List Nat) :
    Sxus.readFromBytes (v.writeToBytes ++ rest) = .ok v rest := by
  unfold Sxus.readFromBytes Sxus.writeToBytes
  rw [List.append_assoc, readU8_writeU8 _ h.1]
  simp only [DResult.bind_ok]
  rw [readCString_writeCString _ h.2]
  rfl

end Citp.Sdmx

/-! ## `protocol::fptc` -/

namespace Citp.Fptc

/-- `fptc::Ptch`. -/
structure Ptch where
  fixtureIdentifier : Nat
  /-- The source field is named `universe`, a Lean keyword. -/
  universeIdx : Nat
  reserved : Nat
  channel : Nat
  channelCount : Nat
  fixtureMake : List Nat
  fixtureName : List Nat
deriving DecidableEq

/-- `impl WriteToBytes for Ptch`. -/
def Ptch.writeToBytes (v : Ptch) : List Nat :=
  writeU16le v.fixtureIdentifier ++ writeU8 v.universeIdx ++ writeU8 v.reserved ++
    writeU16le v.channel ++ writeU16le v.channelCount ++
    writeCString v.fixtureMake ++ writeCString v.fixtureName

/-- `impl ReadFromBytes for Ptch`. -/
def Ptch.readFromBytes (bs : List Nat) : DResult Ptch :=
  DResult.bind (readU16le bs) fun fid r1 =>
  DResult.bind (readU8 r1) fun uni r2 =>
  DResult.bind (readU8 r2) fun res r3 =>
  DResult.bind (readU16le r3) fun ch r4 =>
  DResult.bind (readU16le r4) fun cc r5 =>
  DResult.bind (readCString r5) fun mk r6 =>
  DResult.bind (readCString r6) fun nm r7 =>
  .ok ⟨fid, uni, res, ch, cc, mk, nm⟩ r7

/-- `impl SizeBytes for Ptch`. -/
def Ptch.sizeBytes (v : Ptch) : Nat :=
  2 + 1 + 1 + 2 + 2 + cStringSizeBytes v.fixtureMake + cStringSizeBytes v.fixtureName

def Ptch.wf (v : Ptch) : Prop :=
  v.fixtureIdentifier < 65536 ∧ v.universeIdx < 256 ∧ v.reserved < 256 ∧
    v.channel < 65536 ∧ v.channelCount < 65536 ∧
    cStringWf v.fixtureMake ∧ cStringWf v.fixtureName

theorem ptch_roundtrip (v : Ptch) (h : v.wf) (rest : List Nat) :
    Ptch.readFromBytes (v.writeToBytes ++ rest) = .ok v rest := by
  obtain ⟨h1, h2, h3, h4, h5, h6, h7⟩ := h
  unfold Ptch.readFromBytes Ptch.writeToBytes
  simp only [List.append_assoc]
  rw [readU16le_writeU16le _ h1]
  simp only [DResult.bind_ok]
  rw [readU8_writeU8 _ h2]
  simp only [DResult.bind_ok]
  rw [readU8_writeU8 _ h3]
  simp only [DResult.bind_ok]
  rw [readU16le_writeU16le _ h4]
  simp only [DResult.bind_ok]
  rw [readU16le_writeU16le _ h5]
  simp only [DResult.bind_ok]
  rw [readCString_writeCString _ h6]
  simp only [DResult.bind_ok]
  rw [readCString_writeCString _ h7]
  rfl

/-- `fptc::UPtc`. -/
structure UPtc where
  fixtureIdentifiers : List Nat
deriving DecidableEq

/-- `impl WriteToBytes for UPtc` (`fixture_identifiers.len() as _` is a
`u16` cast: the count prefix is the length modulo 2^16, with no range check). -/
def UPtc.writeToBytes (v : UPtc) : List Nat :=
  writeU16le v.fixtureIdentifiers.length ++ v.fixtureIdentifiers.flatMap writeU16le

/-- `impl ReadFromBytes for UPtc`. -/
def UPtc.readFromBytes (bs : List Nat) : DResult UPtc :=
  DResult.bind (readU16le bs) fun count rest =>
    DResult.bind (readN readU16le count rest) fun ids r2 => .ok ⟨ids⟩ r2

/-- `impl SizeBytes for UPtc`: `len * size_of::<u16>()` — the source does not
count the two-byte count prefix that the encoder emits. -/
def UPtc.sizeBytes (v : UPtc) : Nat := v.fixtureIdentifiers.length * 2

def UPtc.wf (v : UPtc) : Prop :=
  v.fixtureIdentifiers.length < 65536 ∧ ∀ x ∈ v.fixtureIdentifiers, x < 65536

theorem uptc_roundtrip (v : UPtc) (h : v.wf) (rest : List Nat) :
    UPtc.readFromBytes (v.writeToBytes ++ rest) = .ok v rest := by
  unfold UPtc.readFromBytes UPtc.writeToBytes
  rw [List.append_assoc, readU16le_writeU16le _ h.1]
  simp only [DResult.bind_ok]
  rw [readN_readU16le _ h.2]
  rfl

/-- `fptc::SPtc`. -/
structure SPtc where
  fixtureIdentifiers : List Nat
deriving DecidableEq

/-- `impl WriteToBytes for SPtc`. -/
def SPtc.writeToBytes (v : SPtc) : List Nat :=
  writeU16le v.fixtureIdentifiers.length ++ v.fixtureIdentifiers.flatMap writeU16le

/-- `impl ReadFromBytes for SPtc`. -/
def SPtc.readFromBytes (bs : List Nat) : DResult SPtc :=
  DResult.bind (readU16le bs) fun count rest =>
    DResult.bind (readN readU16le count rest) fun ids r2 => .ok ⟨ids⟩ r2

/-- `impl SizeBytes for SPtc`: also omits the count prefix. -/
def SPtc.sizeBytes (v : SPtc) : Nat := v.fixtureIdentifiers.length * 2

def SPtc.wf (v : SPtc) : Prop :=
  v.fixtureIdentifiers.length < 65536 ∧ ∀ x ∈ v.fixtureIdentifiers, x < 65536

theorem sptc_roundtrip (v : SPtc) (h : v.wf) (rest : List Nat) :
    SPtc.readFromBytes (v.writeToBytes ++ rest) = .ok v rest := by
  unfold SPtc.readFromBytes SPtc.writeToBytes
  rw [List.append_assoc, readU16le_writeU16le _ h.1]
  simp only [DResult.bind_ok]
  rw [readN_readU16le _ h.2]
  rfl

end Citp.Fptc

/-! ## `protocol::pinf` -/

namespace Citp.Pinf

/-- `pinf::PNam`. -/
structure PNam where
  name : List Nat
deriving DecidableEq

/-- `impl WriteToBytes for PNam`. -/
def PNam.writeToBytes (v : PNam) : List Nat := writeCString v.name

/-- `impl ReadFromBytes for PNam`. -/
def PNam.readFromBytes (bs : List Nat) : DResult PNam :=
  DResult.bind (readCString bs) fun s r => .ok ⟨s⟩ r

/-- `impl SizeBytes for PNam`. -/
def PNam.sizeBytes (v : PNam) : Nat := cStringSizeBytes v.name

def PNam.wf (v : PNam) : Prop := cStringWf v.name

theorem pnam_roundtrip (v : PNam) (h : v.wf) (rest : List Nat) :
    PNam.readFromBytes (v.writeToBytes ++ rest) = .ok v rest := by
  unfold PNam.readFromBytes PNam.writeToBytes
  rw [readCString_writeCString _ h]
  rfl

/-- `pinf::PLoc`. -/
structure PLoc where
  listeningTcpPort : Nat
  kind : List Nat
  name : List Nat
  state : List Nat
deriving DecidableEq

/-- `impl WriteToBytes for PLoc`. -/
def PLoc.writeToBytes (v : PLoc) : List Nat :=
  writeU16le v.listeningTcpPort ++ writeCString v.kind ++ writeCString v.name ++
    writeCString v.state

/-- `impl ReadFromBytes for PLoc`. -/
def PLoc.readFromBytes (bs : List Nat) : DResult PLoc :=
  DResult.bind (readU16le bs) fun port r1 =>
  DResult.bind (readCString r1) fun kind r2 =>
  DResult.bind (readCString r2) fun name r3 =>
  DResult.bind (readCString r3) fun st r4 =>
  .ok ⟨port, kind, name, st⟩ r4

/-- `impl SizeBytes for PLoc`. -/
def PLoc.sizeBytes (v : PLoc) : Nat :=
  2 + cStringSizeBytes v.kind + cStringSizeBytes v.name + cStringSizeBytes v.state

def PLoc.wf (v : PLoc) : Prop :=
  v.listeningTcpPort < 65536 ∧ cStringWf v.kind ∧ cStringWf v.name ∧ cStringWf v.state

theorem ploc_roundtrip (v : PLoc) (h : v.wf) (rest : List Nat) :
    PLoc.readFromBytes (v.writeToBytes ++ rest) = .ok v rest := by
  obtain ⟨h1, h2, h3, h4⟩ := h
  unfold PLoc.readFromBytes PLoc.writeToBytes
  simp only [List.append_assoc]
  rw [readU16le_writeU16le _ h1]
  simp only [DResult.bind_ok]
  rw [readCString_writeCString _ h2]
  simp only [DResult.bind_ok]
  rw [readCString_writeCString _ h3]
  simp only [DResult.bind_ok]
  rw [readCString_writeCString _ h4]
  rfl

end Citp.Pinf

/-! ## `protocol::fsel` -/

namespace Citp.Fsel

/-- `fsel::Sele`. -/
structure Sele where
  complete : Nat
  reserved : Nat
  fixtureIdentifiers : List Nat
deriving DecidableEq

/-- `impl WriteToBytes for Sele`. -/
def Sele.writeToBytes (v : Sele) : List Nat :=
  writeU8 v.complete ++ writeU8 v.reserved ++
    writeU16le v.fixtureIdentifiers.length ++ v.fixtureIdentifiers.flatMap writeU16le

/-- `impl ReadFromBytes for Sele`. -/
def Sele.readFromBytes (bs : List Nat) : DResult Sele :=
  DResult.bind (readU8 bs) fun c r1 =>
  DResult.bind (readU8 r1) fun res r2 =>
  DResult.bind (readU16le r2) fun count r3 =>
  DResult.bind (readN readU16le count r3) fun ids r4 => .ok ⟨c, res, ids⟩ r4

def Sele.wf (v : Sele) : Prop :=
  v.complete < 256 ∧ v.reserved < 256 ∧ v.fixtureIdentifiers.length < 65536 ∧
    ∀ x ∈ v.fixtureIdentifiers, x < 65536

theorem sele_roundtrip (v : Sele) (h : v.wf) (rest : List Nat) :
    Sele.readFromBytes (v.writeToBytes ++ rest) = .ok v rest := by
  obtain ⟨h1, h2, h3, h4⟩ := h
  unfold Sele.readFromBytes Sele.writeToBytes
  simp only [List.append_assoc]
  rw [readU8_writeU8 _ h1]
  simp only [DResult.bind_ok]
  rw [readU8_writeU8 _ h2]
  simp only [DResult.bind_ok]
  rw [readU16le_writeU16le _ h3]
  simp only [DResult.bind_ok]
  rw [readN_readU16le _ h4]
  rfl

/-- `fsel::DeSe`. -/
structure DeSe where
  fixtureIdentifiers : List Nat
deriving DecidableEq

/-- `impl WriteToBytes for DeSe`. -/
def DeSe.writeToBytes (v : DeSe) : List Nat :=
  writeU16le v.fixtureIdentifiers.length ++ v.fixtureIdentifiers.flatMap writeU16le

/-- `impl ReadFromBytes for DeSe`. -/
def DeSe.readFromBytes (bs : List Nat) : DResult DeSe :=
  DResult.bind (readU16le bs) fun count rest =>
    DResult.bind (readN readU16le count rest) fun ids r2 => .ok ⟨ids⟩ r2

def DeSe.wf (v : DeSe) : Prop :=
  v.fixtureIdentifiers.length < 65536 ∧ ∀ x ∈ v.fixtureIdentifiers, x < 65536

theorem dese_roundtrip (v : DeSe) (h : v.wf) (rest : List Nat) :
    DeSe.readFromBytes (v.writeToBytes ++ rest) = .ok v rest := by
  unfold DeSe.readFromBytes DeSe.writeToBytes
  rw [List.append_assoc, readU16le_writeU16le _ h.1]
  simp only [DResult.bind_ok]
  rw [readN_readU16le _ h.2]
  rfl

end Citp.Fsel

/-! ## `protocol::finf` -/

namespace Citp.Finf

/-- `finf::SFra`. -/
structure SFra where
  fixtureIdentifiers : List Nat
deriving DecidableEq

/-- `impl WriteToBytes for SFra`. -/
def SFra.writeToBytes (v : SFra) : List Nat :=
  writeU16le v.fixtureIdentifiers.length ++ v.fixtureIdentifiers.flatMap writeU16le

/-- `impl ReadFromBytes for SFra`. -/
def SFra.readFromBytes (bs : List Nat) : DResult SFra :=
  DResult.bind (readU16le bs) fun count rest =>
    DResult.bind (readN readU16le count rest) fun ids r2 => .ok ⟨ids⟩ r2

def SFra.wf (v : SFra) : Prop :=
  v.fixtureIdentifiers.length < 65536 ∧ ∀ x ∈ v.fixtureIdentifiers, x < 65536

theorem sfra_roundtrip (v : SFra) (h : v.wf) (rest : List Nat) :
    SFra.readFromBytes (v.writeToBytes ++ rest) = .ok v rest := by
  unfold SFra.readFromBytes SFra.writeToBytes
  rw [List.append_assoc, readU16le_writeU16le _ h.1]
  simp only [DResult.bind_ok]
  rw [readN_readU16le _ h.2]
  rfl

/-- `finf::Fram`. -/
structure Fram where
  fixtureIdentifier : Nat
  frameFilterCount : Nat
  frameGoboCount : Nat
  frameNames : List Nat
deriving DecidableEq

/-- `impl WriteToBytes for Fram`. -/
def Fram.writeToBytes (v : Fram) : List Nat :=
  writeU16le v.fixtureIdentifier ++ writeU8 v.frameFilterCount ++
    writeU8 v.frameGoboCount ++ writeCString v.frameNames

/-- `impl ReadFromBytes for Fram`. -/
def Fram.readFromBytes (bs : List Nat) : DResult Fram :=
  DResult.bind (readU16le bs) fun fid r1 =>
  DResult.bind (readU8 r1) fun ff r2 =>
  DResult.bind (readU8 r2) fun fg r3 =>
  DResult.bind (readCString r3) fun names r4 => .ok ⟨fid, ff, fg, names⟩ r4

def Fram.wf (v : Fram) : Prop :=
  v.fixtureIdentifier < 65536 ∧ v.frameFilterCount < 256 ∧
    v.frameGoboCount < 256 ∧ cStringWf v.frameNames

theorem fram_roundtrip (v : Fram) (h : v.wf) (rest : List Nat) :
    Fram.readFromBytes (v.writeToBytes ++ rest) = .ok v rest := by
  obtain ⟨h1, h2, h3, h4⟩ := h
  unfold Fram.readFromBytes Fram.writeToBytes
  simp only [List.append_assoc]
  rw [readU16le_writeU16le _ h1]
  simp only [DResult.bind_ok]
  rw [readU8_writeU8 _ h2]
  simp only [DResult.bind_ok]
  rw [readU8_writeU8 _ h3]
  simp only [DResult.bind_ok]
  rw [readCString_writeCString _ h4]
  rfl

end Citp.Finf

/-! ## `protocol::caex` -/

namespace Citp

/-- `read_exact` into a buffer of the given length. -/
def readExact (n : Nat) (bs : List Nat) : DResult (List Nat) :=
  if n ≤ bs.length then .ok (bs.take n) (bs.drop n) else .eofErr

theorem readExact_append (data rest : List Nat) :
    readExact data.length (data ++ rest) = .ok data rest := by
  unfold readExact
  rw [if_pos (by simp)]
  simp

/-- Sequence a list of fallible element encoders, concatenating their output;
`none` as soon as one element's encoder panics. -/
def writeListOpt {α : Type} (w : α → Option (List Nat)) : List α → Option (List Nat)
  | [] => some []
  | a :: tl =>
      match w a, writeListOpt w tl with
      | some b, some bs => some (b ++ bs)
      | _, _ => none

theorem readN_roundtripOpt {α : Type} (read1 : List Nat → DResult α)
    (write1 : α → Option (List Nat)) (l : List α)
    (h : ∀ a ∈ l, ∀ b, write1 a = some b → ∀ r : List Nat, read1 (b ++ r) = .ok a r) :
    ∀ bs : List Nat, writeListOpt write1 l = some bs →
      ∀ rest : List Nat, readN read1 l.length (bs ++ rest) = .ok l rest := by
  induction l with
  | nil => intro bs hbs rest; simp only [writeListOpt] at hbs; cases hbs; simp [readN]
  | cons a tl ih =>
      intro bs hbs rest
      simp only [writeListOpt] at hbs
      cases hw : write1 a with
      | none => rw [hw] at hbs; simp at hbs
      | some b =>
          rw [hw] at hbs
          cases hwl : writeListOpt write1 tl with
          | none => rw [hwl] at hbs; simp at hbs
          | some btl =>
              rw [hwl] at hbs
              simp only [Option.some.injEq] at hbs
              subst hbs
              simp only [List.length_cons, readN, List.append_assoc]
              rw [h a (by simp) b hw]
              simp only [DResult.bind_ok]
              rw [ih (fun x hx b hb r => h x (by simp [hx]) b hb r) btl hwl]
              rfl

end Citp

namespace Citp.Caex

/-- `caex::NackReason`. -/
inductive NackReason : Type where
  | UnknownRequest
  | IncorrectRequest
  | InternalError
  | RequestRefused
deriving DecidableEq

/-- `impl From<u8> for NackReason`: `none` models the `unreachable!` panic
taken for any byte `>= 4`. -/
def NackReason.fromU8 (b : Nat) : Option NackReason :=
  if b = 0 then some .UnknownRequest
  else if b = 1 then some .IncorrectRequest
  else if b = 2 then some .InternalError
  else if b = 3 then some .RequestRefused
  else none

/-- `caex::FixtureListMessageType`. -/
inductive FixtureListMessageType : Type where
  | ExistingPatchList
  | NewFixture
  | ExchangeFixture
deriving DecidableEq

/-- `impl From<u8> for FixtureListMessageType`: `none` models the
`unreachable!` panic taken for any byte `>= 3`. -/
def FixtureListMessageType.fromU8 (b : Nat) : Option FixtureListMessageType :=
  if b = 0 then some .ExistingPatchList
  else if b = 1 then some .NewFixture
  else if b = 2 then some .ExchangeFixture
  else none

/-- `impl From<FixtureListMessageType> for u8`. -/
def FixtureListMessageType.toU8 : FixtureListMessageType → Nat
  | .ExistingPatchList => 0
  | .NewFixture => 1
  | .ExchangeFixture => 2

theorem fixtureListMessageType_fromU8_toU8 (t : FixtureListMessageType) :
    FixtureListMessageType.fromU8 t.toU8 = some t := by
  cases t <;> rfl

theorem fixtureListMessageType_toU8_lt (t : FixtureListMessageType) : t.toU8 < 256 := by
  cases t <;> simp [FixtureListMessageType.toU8]

/-- `caex::IdentifierType`. -/
inductive IdentifierType : Type where
  | RDMDeviceModelId
  | RDMPersonalityId
  | AtlaBaseFixtureId
  | AtlaBaseModeId
  | CaptureInstanceId
  | RDMManufacturerId
deriving DecidableEq

/-- `impl From<u8> for IdentifierType`: `none` models the `unreachable!`
panic taken for any byte `>= 6`. -/
def IdentifierType.fromU8 (b : Nat) : Option IdentifierType :=
  if b = 0 then some .RDMDeviceModelId
  else if b = 1 then some .RDMPersonalityId
  else if b = 2 then some .AtlaBaseFixtureId
  else if b = 3 then some .AtlaBaseModeId
  else if b = 4 then some .CaptureInstanceId
  else if b = 5 then some .RDMManufacturerId
  else none

/-- `impl From<IdentifierType> for u8`. -/
def IdentifierType.toU8 : IdentifierType → Nat
  | .RDMDeviceModelId => 0
  | .RDMPersonalityId => 1
  | .AtlaBaseFixtureId => 2
  | .AtlaBaseModeId => 3
  | .CaptureInstanceId => 4
  | .RDMManufacturerId => 5

theorem identifierType_fromU8_toU8 (t : IdentifierType) :
    IdentifierType.fromU8 t.toU8 = some t := by
  cases t <;> rfl

theorem identifierType_toU8_lt (t : IdentifierType) : t.toU8 < 256 := by
  cases t <;> simp [IdentifierType.toU8]

/-- `caex::Identifier`. -/
structure Identifier where
  identifierType : IdentifierType
  dataSize : Nat
  data : List Nat
deriving DecidableEq

/-- `impl WriteToBytes for Identifier`: writes `data_size` bytes taken from
`data` by index — `none` models the index-out-of-bounds panic when
`data_size > data.len()`. -/
def Identifier.writeToBytes (v : Identifier) : Option (List Nat) :=
  if v.dataSize ≤ v.data.length then
    some (writeU8 v.identifierType.toU8 ++ writeU16le v.dataSize ++ v.data.take v.dataSize)
  else none

/-- `impl ReadFromBytes for Identifier` (the `u8 -> IdentifierType`
conversion panics on bytes `>= 6`). -/
def Identifier.readFromBytes (bs : List Nat) : DResult Identifier :=
  DResult.bind (readU8 bs) fun tb r1 =>
    match IdentifierType.fromU8 tb with
    | none => .panicked
    | some t =>
        DResult.bind (readU16le r1) fun size r2 =>
          DResult.bind (readExact size r2) fun data r3 => .ok ⟨t, size, data⟩ r3

/-- `impl SizeBytes for Identifier`: counts `data.len()` bytes of data (the
encoder instead emits `data_size` bytes). -/
def Identifier.sizeBytes (v : Identifier) : Nat := 1 + 2 + v.data.length

def Identifier.wf (v : Identifier) : Prop :=
  v.dataSize = v.data.length ∧ v.dataSize < 65536 ∧ ∀ b ∈ v.data, b < 256

theorem identifier_roundtrip (v : Identifier) (h : v.wf) (b : List Nat)
    (hw : v.writeToBytes = some b) (rest : List Nat) :
    Identifier.readFromBytes (b ++ rest) = .ok v rest := by
  obtain ⟨h1, h2, _⟩ := h
  unfold Identifier.writeToBytes at hw
  rw [if_pos (by omega)] at hw
  cases hw
  unfold Identifier.readFromBytes
  simp only [List.append_assoc]
  rw [readU8_writeU8 _ (identifierType_toU8_lt _)]
  simp only [DResult.bind_ok]
  rw [identifierType_fromU8_toU8]
  rw [readU16le_writeU16le _ h2]
  simp only [DResult.bind_ok]
  rw [show v.data.take v.dataSize = v.data from h1 ▸ List.take_length _]
  rw [show v.dataSize = v.data.length from h1]
  rw [readExact_append]
  simp only [DResult.bind_ok]
  rw [← h1]

/-- `caex::FixtureData` (the source field `universe` is a Lean keyword and is
named `universeIdx` here; the `[f32; 3]` position and angle fields are
modelled by the little-endian bit patterns of their three components). -/
structure FixtureData where
  patched : Nat
  universeIdx : Nat
  universeChannel : Nat
  unit : List Nat
  channel : Nat
  circuit : List Nat
  note : List Nat
  position0 : Nat
  position1 : Nat
  position2 : Nat
  angles0 : Nat
  angles1 : Nat
  angles2 : Nat
deriving DecidableEq

/-- `impl WriteToBytes for FixtureData` (`write_f32::<LE>` writes the 4-byte
bit pattern, modelled by `writeU32le`). -/
def FixtureData.writeToBytes (v : FixtureData) : List Nat :=
  writeU8 v.patched ++ writeU8 v.universeIdx ++ writeU16le v.universeChannel ++
    writeUcs2 v.unit ++ writeU16le v.channel ++ writeUcs2 v.circuit ++
    writeUcs2 v.note ++ writeU32le v.position0 ++ writeU32le v.position1 ++
    writeU32le v.position2 ++ writeU32le v.angles0 ++ writeU32le v.angles1 ++
    writeU32le v.angles2

/-- `impl ReadFromBytes for FixtureData`. -/
def FixtureData.readFromBytes (bs : List Nat) : DResult FixtureData :=
  DResult.bind (readU8 bs) fun patched r1 =>
  DResult.bind (readU8 r1) fun uni r2 =>
  DResult.bind (readU16le r2) fun uch r3 =>
  DResult.bind (readUcs2 r3) fun unit r4 =>
  DResult.bind (readU16le r4) fun ch r5 =>
  DResult.bind (readUcs2 r5) fun circuit r6 =>
  DResult.bind (readUcs2 r6) fun note r7 =>
  DResult.bind (readU32le r7) fun p0 r8 =>
  DResult.bind (readU32le r8) fun p1 r9 =>
  DResult.bind (readU32le r9) fun p2 r10 =>
  DResult.bind (readU32le r10) fun a0 r11 =>
  DResult.bind (readU32le r11) fun a1 r12 =>
  DResult.bind (readU32le r12) fun a2 r13 =>
  .ok ⟨patched, uni, uch, unit, ch, circuit, note, p0, p1, p2, a0, a1, a2⟩ r13

/-- `impl SizeBytes for FixtureData`. -/
def FixtureData.sizeBytes (v : FixtureData) : Nat :=
  1 + 1 + 2 + ucs2SizeBytes v.unit + 2 + ucs2SizeBytes v.circuit +
    ucs2SizeBytes v.note + 12 + 12

def FixtureData.wf (v : FixtureData) : Prop :=
  v.patched < 256 ∧ v.universeIdx < 256 ∧ v.universeChannel < 65536 ∧
    ucs2Wf v.unit ∧ v.channel < 65536 ∧ ucs2Wf v.circuit ∧ ucs2Wf v.note ∧
    v.position0 < 4294967296 ∧ v.position1 < 4294967296 ∧
    v.position2 < 4294967296 ∧ v.angles0 < 4294967296 ∧
    v.angles1 < 4294967296 ∧ v.angles2 < 4294967296

theorem fixtureData_roundtrip (v : FixtureData) (h : v.wf) (rest : List Nat) :
    FixtureData.readFromBytes (v.writeToBytes ++ rest) = .ok v rest := by
  obtain ⟨h1, h2, h3, h4, h5, h6, h7, h8, h9, h10, h11, h12, h13⟩ := h
  unfold FixtureData.readFromBytes FixtureData.writeToBytes
  simp only [List.append_assoc]
  rw [readU8_writeU8 _ h1]
  simp only [DResult.bind_ok]
  rw [readU8_writeU8 _ h2]
  simp only [DResult.bind_ok]
  rw [readU16le_writeU16le _ h3]
  simp only [DResult.bind_ok]
  rw [readUcs2_writeUcs2 _ h4]
  simp only [DResult.bind_ok]
  rw [readU16le_writeU16le _ h5]
  simp only [DResult.bind_ok]
  rw [readUcs2_writeUcs2 _ h6]
  simp only [DResult.bind_ok]
  rw [readUcs2_writeUcs2 _ h7]
  simp only [DResult.bind_ok]
  rw [readU32le_writeU32le _ h8]
  simp only [DResult.bind_ok]
  rw [readU32le_writeU32le _ h9]
  simp only [DResult.bind_ok]
  rw [readU32le_writeU32le _ h10]
  simp only [DResult.bind_ok]
  rw [readU32le_writeU32le _ h11]
  simp only [DResult.bind_ok]
  rw [readU32le_writeU32le _ h12]
  simp only [DResult.bind_ok]
  rw [readU32le_writeU32le _ h13]
  rfl

/-- `caex::Fixture`. -/
structure Fixture where
  fixtureIdentifier : Nat
  manufacturerName : List Nat
  fixtureName : List Nat
  modeName : List Nat
  channelCount : Nat
  isDimmer : Nat
  identifierCount : Nat
  identifiers : List Identifier
  data : FixtureData
deriving DecidableEq

/-- `impl WriteToBytes for Fixture` — writes the `identifier_count` field and
then every identifier in the list. -/
def Fixture.writeToBytes (v : Fixture) : Option (List Nat) :=
  (writeListOpt Identifier.writeToBytes v.identifiers).map fun idsBytes =>
    writeU32le v.fixtureIdentifier ++ writeUcs2 v.manufacturerName ++
      writeUcs2 v.fixtureName ++ writeUcs2 v.modeName ++
      writeU16le v.channelCount ++ writeU8 v.isDimmer ++
      writeU8 v.identifierCount ++ idsBytes ++ v.data.writeToBytes

/-- The fixture-parsing loop body of `impl ReadFromBytes for FixtureList`. -/
def Fixture.readFromBytes (bs : List Nat) : DResult Fixture :=
  DResult.bind (readU32le bs) fun fid r1 =>
  DResult.bind (readUcs2 r1) fun manu r2 =>
  DResult.bind (readUcs2 r2) fun fname r3 =>
  DResult.bind (readUcs2 r3) fun mode r4 =>
  DResult.bind (readU16le r4) fun cc r5 =>
  DResult.bind (readU8 r5) fun dim r6 =>
  DResult.bind (readU8 r6) fun idc r7 =>
  DResult.bind (readN Identifier.readFromBytes idc r7) fun ids r8 =>
  DResult.bind (FixtureData.readFromBytes r8) fun data r9 =>
  .ok ⟨fid, manu, fname, mode, cc, dim, idc, ids, data⟩ r9

/-- `impl SizeBytes for Fixture`. -/
def Fixture.sizeBytes (v : Fixture) : Nat :=
  4 + ucs2SizeBytes v.manufacturerName + ucs2SizeBytes v.fixtureName +
    ucs2SizeBytes v.modeName + 2 + 1 + 1 +
    (v.identifiers.map Identifier.sizeBytes).sum + v.data.sizeBytes

def Fixture.wf (v : Fixture) : Prop :=
  v.fixtureIdentifier < 4294967296 ∧ ucs2Wf v.manufacturerName ∧
    ucs2Wf v.fixtureName ∧ ucs2Wf v.modeName ∧ v.channelCount < 65536 ∧
    v.isDimmer < 256 ∧ v.identifierCount = v.identifiers.length ∧
    v.identifierCount < 256 ∧ (∀ i ∈ v.identifiers, i.wf) ∧ v.data.wf

theorem fixture_roundtrip (v : Fixture) (h : v.wf) (b : List Nat)
    (hw : v.writeToBytes = some b) (rest : List Nat) :
    Fixture.readFromBytes (b ++ rest) = .ok v rest := by
  obtain ⟨h1, h2, h3, h4, h5, h6, h7, h8, h9, h10⟩ := h
  unfold Fixture.writeToBytes at hw
  cases hl : writeListOpt Identifier.writeToBytes v.identifiers with
  | none => rw [hl] at hw; simp at hw
  | some idsBytes =>
      rw [hl] at hw
      simp only [Option.map_some', Option.some.injEq] at hw
      subst hw
      unfold Fixture.readFromBytes
      simp only [List.append_assoc]
      rw [readU32le_writeU32le _ h1]
      simp only [DResult.bind_ok]
      rw [readUcs2_writeUcs2 _ h2]
      simp only [DResult.bind_ok]
      rw [readUcs2_writeUcs2 _ h3]
      simp only [DResult.bind_ok]
      rw [readUcs2_writeUcs2 _ h4]
      simp only [DResult.bind_ok]
      rw [readU16le_writeU16le _ h5]
      simp only [DResult.bind_ok]
      rw [readU8_writeU8 _ h6]
      simp only [DResult.bind_ok]
      rw [readU8_writeU8 _ h8]
      simp only [DResult.bind_ok]
      rw [h7]
      rw [readN_roundtripOpt Identifier.readFromBytes Identifier.writeToBytes
        v.identifiers (fun a ha b hb r => identifier_roundtrip a (h9 a ha) b hb r)
        idsBytes hl]
      simp only [DResult.bind_ok]
      rw [fixtureData_roundtrip _ h10]
      simp only [DResult.bind_ok]
      rw [← h7]

/-- `caex::FixtureList`. -/
structure FixtureList where
  messageType : FixtureListMessageType
  fixtureCount : Nat
  fixtures : List Fixture
deriving DecidableEq

/-- `impl WriteToBytes for FixtureList` — writes the `fixture_count` field
and then every fixture in the list. -/
def FixtureList.writeToBytes (v : FixtureList) : Option (List Nat) :=
  (writeListOpt Fixture.writeToBytes v.fixtures).map fun fxBytes =>
    writeU8 v.messageType.toU8 ++ writeU16le v.fixtureCount ++ fxBytes

/-- `impl ReadFromBytes for FixtureList` (the `u8 -> FixtureListMessageType`
conversion panics on bytes `>= 3`). -/
def FixtureList.readFromBytes (bs : List Nat) : DResult FixtureList :=
  DResult.bind (readU8 bs) fun tb r1 =>
    match FixtureListMessageType.fromU8 tb with
    | none => .panicked
    | some mt =>
        DResult.bind (readU16le r1) fun count r2 =>
          DResult.bind (readN Fixture.readFromBytes count r2) fun fxs r3 =>
            .ok ⟨mt, count, fxs⟩ r3

/-- `impl SizeBytes for FixtureList`. -/
def FixtureList.sizeBytes (v : FixtureList) : Nat :=
  1 + 2 + (v.fixtures.map Fixture.sizeBytes).sum

def FixtureList.wf (v : FixtureList) : Prop :=
  v.fixtureCount = v.fixtures.length ∧ v.fixtureCount < 65536 ∧
    ∀ f ∈ v.fixtures, f.wf

theorem fixtureList_roundtrip (v : FixtureList) (h : v.wf) (b : List Nat)
    (hw : v.writeToBytes = some b) (rest : List Nat) :
    FixtureList.readFromBytes (b ++ rest) = .ok v rest := by
  obtain ⟨h1, h2, h3⟩ := h
  unfold FixtureList.writeToBytes at hw
  cases hl : writeListOpt Fixture.writeToBytes v.fixtures with
  | none => rw [hl] at hw; simp at hw
  | some fxBytes =>
      rw [hl] at hw
      simp only [Option.map_some', Option.some.injEq] at hw
      subst hw
      unfold FixtureList.readFromBytes
      simp only [List.append_assoc]
      rw [readU8_writeU8 _ (fixtureListMessageType_toU8_lt _)]
      simp only [DResult.bind_ok]
      rw [fixtureListMessageType_fromU8_toU8]
      rw [readU16le_writeU16le _ h2]
      simp only [DResult.bind_ok]
      rw [h1]
      rw [readN_roundtripOpt Fixture.readFromBytes Fixture.writeToBytes
        v.fixtures (fun a ha b hb r => fixture_roundtrip a (h3 a ha) b hb r)
        fxBytes hl]
      simp only [DResult.bind_ok]
      rw [← h1]

/-- `caex::FixtureRemove`. -/
structure FixtureRemove where
  fixtureCount : Nat
  fixtureIdentifiers : List Nat
deriving DecidableEq

/-- `impl WriteToBytes for FixtureRemove` — writes the `fixture_count` field
and then every identifier in the list as a `u32`. -/
def FixtureRemove.writeToBytes (v : FixtureRemove) : List Nat :=
  writeU16le v.fixtureCount ++ v.fixtureIdentifiers.flatMap writeU32le

/-- `impl ReadFromBytes for FixtureRemove`. -/
def FixtureRemove.readFromBytes (bs : List Nat) : DResult FixtureRemove :=
  DResult.bind (readU16le bs) fun count rest =>
    DResult.bind (readN readU32le count rest) fun ids r2 => .ok ⟨count, ids⟩ r2

/-- `impl SizeBytes for FixtureRemove` — counts `fixture_count` elements. -/
def FixtureRemove.sizeBytes (v : FixtureRemove) : Nat := 2 + v.fixtureCount * 4

def FixtureRemove.wf (v : FixtureRemove) : Prop :=
  v.fixtureCount = v.fixtureIdentifiers.length ∧ v.fixtureCount < 65536 ∧
    ∀ x ∈ v.fixtureIdentifiers, x < 4294967296

theorem fixtureRemove_roundtrip (v : FixtureRemove) (h : v.wf) (rest : List Nat) :
    FixtureRemove.readFromBytes (v.writeToBytes ++ rest) = .ok v rest := by
  obtain ⟨h1, h2, h3⟩ := h
  unfold FixtureRemove.readFromBytes FixtureRemove.writeToBytes
  rw [List.append_assoc, readU16le_writeU16le _ h2]
  simp only [DResult.bind_ok]
  rw [h1, readN_readU32le _ h3]
  simp only [DResult.bind_ok]
  rw [← h1]

/-- `caex::LaserFeedControl`. -/
structure LaserFeedControl where
  feedIndex : Nat
  frameRate : Nat
deriving DecidableEq

/-- `impl WriteToBytes for LaserFeedControl`. -/
def LaserFeedControl.writeToBytes (v : LaserFeedControl) : List Nat :=
  writeU8 v.feedIndex ++ writeU8 v.frameRate

/-- `impl ReadFromBytes for LaserFeedControl`. -/
def LaserFeedControl.readFromBytes (bs : List Nat) : DResult LaserFeedControl :=
  DResult.bind (readU8 bs) fun fi r1 =>
    DResult.bind (readU8 r1) fun fr r2 => .ok ⟨fi, fr⟩ r2

/-- `impl SizeBytes for LaserFeedControl`. -/
def LaserFeedControl.sizeBytes (_ : LaserFeedControl) : Nat := 2

def LaserFeedControl.wf (v : LaserFeedControl) : Prop :=
  v.feedIndex < 256 ∧ v.frameRate < 256

theorem laserFeedControl_roundtrip (v : LaserFeedControl) (h : v.wf) (rest : List Nat) :
    LaserFeedControl.readFromBytes (v.writeToBytes ++ rest) = .ok v rest := by
  unfold LaserFeedControl.readFromBytes LaserFeedControl.writeToBytes
  rw [List.append_assoc, readU8_writeU8 _ h.1]
  simp only [DResult.bind_ok]
  rw [readU8_writeU8 _ h.2]
  rfl

/-- `caex::EnterShow`. -/
structure EnterShow where
  name : List Nat
deriving DecidableEq

/-- `impl WriteToBytes for EnterShow`. -/
def EnterShow.writeToBytes (v : EnterShow) : List Nat := writeUcs2 v.name

/-- `impl ReadFromBytes for EnterShow`. -/
def EnterShow.readFromBytes (bs : List Nat) : DResult EnterShow :=
  DResult.bind (readUcs2 bs) fun name r => .ok ⟨name⟩ r

/-- `impl SizeBytes for EnterShow`. -/
def EnterShow.sizeBytes (v : EnterShow) : Nat := ucs2SizeBytes v.name

def EnterShow.wf (v : EnterShow) : Prop := ucs2Wf v.name

theorem enterShow_roundtrip (v : EnterShow) (h : v.wf) (rest : List Nat) :
    EnterShow.readFromBytes (v.writeToBytes ++ rest) = .ok v rest := by
  unfold EnterShow.readFromBytes EnterShow.writeToBytes
  rw [readUcs2_writeUcs2 _ h]
  rfl

/-- `caex::LaserPoint`. -/
structure LaserPoint where
  xLowByte : Nat
  yLowByte : Nat
  xyHighNibbles : Nat
  color : Nat
deriving DecidableEq

/-- `impl WriteToBytes for LaserPoint`. -/
def LaserPoint.writeToBytes (v : LaserPoint) : List Nat :=
  writeU8 v.xLowByte ++ writeU8 v.yLowByte ++ writeU8 v.xyHighNibbles ++
    writeU16le v.color

/-- `impl SizeBytes for LaserPoint`. -/
def LaserPoint.sizeBytes (_ : LaserPoint) : Nat := 5

/-- `caex::LaserFeedList` — its `feed_names` are `Ucs2` strings. -/
structure LaserFeedList where
  sourceKey : Nat
  feedCount : Nat
  feedNames : List (List Nat)
deriving DecidableEq

/-- `impl WriteToBytes for LaserFeedList` (`feed_names.len() as _` is a `u8`
cast: the count prefix is the length modulo 2^8, with no range check). -/
def LaserFeedList.writeToBytes (v : LaserFeedList) : List Nat :=
  writeU32le v.sourceKey ++ writeU8 v.feedNames.length ++
    v.feedNames.flatMap writeUcs2

/-- `impl SizeBytes for LaserFeedList`. -/
def LaserFeedList.sizeBytes (v : LaserFeedList) : Nat :=
  4 + 1 + (v.feedNames.map ucs2SizeBytes).sum

/-- `caex::LaserFeedFrame`. -/
structure LaserFeedFrame where
  sourceKey : Nat
  feedIndex : Nat
  frameSequence : Nat
  pointCount : Nat
  points : List LaserPoint
deriving DecidableEq

/-- `impl WriteToBytes for LaserFeedFrame` (`points.len() as _` is a `u16`
cast). -/
def LaserFeedFrame.writeToBytes (v : LaserFeedFrame) : List Nat :=
  writeU32le v.sourceKey ++ writeU8 v.feedIndex ++ writeU32le v.frameSequence ++
    writeU16le v.points.length ++ v.points.flatMap LaserPoint.writeToBytes

/-- `impl SizeBytes for LaserFeedFrame`. -/
def LaserFeedFrame.sizeBytes (v : LaserFeedFrame) : Nat :=
  4 + 1 + 4 + 2 + (v.points.map LaserPoint.sizeBytes).sum

end Citp.Caex

/-! ## Bitwise bridging lemmas -/

namespace Citp

theorem land_shiftLeft_eq (X y n : Nat) : X &&& (y <<< n) = ((X >>> n) &&& y) <<< n := by
  apply Nat.eq_of_testBit_eq
  intro i
  rcases Nat.lt_or_ge i n with hi | hi
  · simp [Nat.testBit_and, Nat.testBit_shiftLeft, Nat.not_le_of_lt hi]
  · simp only [Nat.testBit_and, Nat.testBit_shiftLeft, Nat.testBit_shiftRight, ge_iff_le, hi,
      decide_True, Bool.true_and]
    rw [Nat.add_sub_cancel' hi]

theorem lor_eq_add_of_lt (a m n : Nat) (ha : a < 2 ^ n) : a ||| m * 2 ^ n = a + m * 2 ^ n := by
  have hmod : (a ||| m * 2 ^ n) % 2 ^ n = a := by
    have : ∀ i : Nat, ((a ||| m * 2 ^ n) % 2 ^ n).testBit i = a.testBit i := by
      intro i
      rcases Nat.lt_or_ge i n with hi | hi
      · have hm : (m * 2 ^ n).testBit i = false := by
          rw [← Nat.shiftLeft_eq, Nat.testBit_shiftLeft]
          simp [Nat.not_le_of_lt hi]
        simp [Nat.testBit_mod_two_pow, Nat.testBit_or, hi, hm]
      · have hfa : a.testBit i = false := Nat.testBit_lt_two_pow (lt_of_lt_of_le ha (Nat.pow_le_pow_right (by norm_num) hi))
        simp [Nat.testBit_mod_two_pow, Nat.testBit_or, Nat.not_lt_of_le hi, hfa]
    exact Nat.eq_of_testBit_eq this
  have hdiv : (a ||| m * 2 ^ n) / 2 ^ n = m := by
    have : ∀ i : Nat, ((a ||| m * 2 ^ n) >>> n).testBit i = m.testBit i := by
      intro i
      have hfa : a.testBit (n + i) = false := Nat.testBit_lt_two_pow (lt_of_lt_of_le ha (Nat.pow_le_pow_right (by norm_num) (Nat.le_add_right n i)))
      have hm : (m * 2 ^ n).testBit (n + i) = m.testBit i := by
        rw [← Nat.shiftLeft_eq, Nat.testBit_shiftLeft]
        simp [Nat.le_add_right]
      simp [Nat.testBit_shiftRight, Nat.testBit_or, hfa, hm]
    have h2 := Nat.eq_of_testBit_eq this
    rwa [Nat.shiftRight_eq_div_pow] at h2
  calc a ||| m * 2 ^ n = 2 ^ n * ((a ||| m * 2 ^ n) / 2 ^ n) + (a ||| m * 2 ^ n) % 2 ^ n := (Nat.div_add_mod _ _).symm
    _ = a + m * 2 ^ n := by rw [hmod, hdiv]; ring

end Citp

/-! ## The bit-packed laser point codec

The packing formulas are modelled from the spec (§4.3): the demo's
`stream_laser_frame` computes `x_low`, `y_low` and the shared nibble byte with
these formulas in `f32` arithmetic before casting to `u8`, and the colour word
with the integer expression `r | g.rotate_left(5) | b.rotate_left(11)` on
`u16`.  The unpacking formulas are transcribed from the `LaserPoint`
documentation in `caex.rs` (`Point.X [0, 4093] = Point.XLowByte +
(Point.XYHighNibbles & 0x0f) << 8`, etc.); no executable decoder for points
exists among the provided sources. -/

namespace Citp.Points

def packXYHighNibbles (x y : Nat) : Nat := (y / 256 % 16) * 16 + (x / 256 % 16)
def unpackX (xLow high : Nat) : Nat := xLow + ((high &&& 0x0f) <<< 8)
def unpackY (yLow high : Nat) : Nat := yLow + ((high &&& 0xf0) <<< 4)

theorem coords_roundtrip (x y : Nat) (hx : x ≤ 4093) (hy : y ≤ 4093) :
    unpackX (x % 256) (packXYHighNibbles x y) = x ∧
      unpackY (y % 256) (packXYHighNibbles x y) = y := by
  constructor
  · unfold unpackX packXYHighNibbles
    rw [show (0x0f : Nat) = 2 ^ 4 - 1 by norm_num, Nat.and_pow_two_sub_one_eq_mod,
      Nat.shiftLeft_eq]
    norm_num
    omega
  · unfold unpackY packXYHighNibbles
    rw [show (0xf0 : Nat) = 15 <<< 4 by decide, land_shiftLeft_eq,
      show (15 : Nat) = 2 ^ 4 - 1 by norm_num, Nat.and_pow_two_sub_one_eq_mod,
      Nat.shiftLeft_eq, Nat.shiftLeft_eq, Nat.shiftRight_eq_div_pow]
    norm_num
    omega

def rotl16 (n k : Nat) : Nat := ((n <<< k) % 65536) ||| (n >>> (16 - k))
def packColor (r g b : Nat) : Nat := r ||| rotl16 g 5 ||| rotl16 b 11
def unpackR (c : Nat) : Nat := c &&& 0x001f
def unpackG (c : Nat) : Nat := (c &&& 0x07e0) >>> 5
def unpackB (c : Nat) : Nat := (c &&& 0xf800) >>> 11

theorem color_roundtrip (r g b : Nat) (hr : r ≤ 31) (hg : g ≤ 63) (hb : b ≤ 31) :
    unpackR (packColor r g b) = r ∧ unpackG (packColor r g b) = g ∧
      unpackB (packColor r g b) = b := by
  have hrot5 : rotl16 g 5 = g * 32 := by
    unfold rotl16
    norm_num [Nat.shiftLeft_eq, Nat.shiftRight_eq_div_pow]
    rw [Nat.mod_eq_of_lt (by omega), Nat.div_eq_of_lt (by omega), Nat.or_zero]
  have hrot11 : rotl16 b 11 = b * 2048 := by
    unfold rotl16
    norm_num [Nat.shiftLeft_eq, Nat.shiftRight_eq_div_pow]
    rw [Nat.mod_eq_of_lt (by omega), Nat.div_eq_of_lt (by omega), Nat.or_zero]
  have hsum : packColor r g b = r + g * 32 + b * 2048 := by
    unfold packColor
    rw [hrot5, hrot11]
    rw [show (32 : Nat) = 2 ^ 5 by norm_num, lor_eq_add_of_lt r g 5 (by omega)]
    rw [show (2048 : Nat) = 2 ^ 11 by norm_num, lor_eq_add_of_lt _ b 11 (by norm_num [pow_succ]; omega)]
  refine ⟨?_, ?_, ?_⟩
  · unfold unpackR
    rw [hsum, show (0x001f : Nat) = 2 ^ 5 - 1 by norm_num, Nat.and_pow_two_sub_one_eq_mod]
    omega
  · unfold unpackG
    rw [hsum, show (0x07e0 : Nat) = 63 <<< 5 by decide, land_shiftLeft_eq,
      Nat.shiftLeft_shiftRight, show (63 : Nat) = 2 ^ 6 - 1 by norm_num,
      Nat.and_pow_two_sub_one_eq_mod, Nat.shiftRight_eq_div_pow]
    norm_num
    omega
  · unfold unpackB
    rw [hsum, show (0xf800 : Nat) = 31 <<< 11 by decide, land_shiftLeft_eq,
      Nat.shiftLeft_shiftRight, show (31 : Nat) = 2 ^ 5 - 1 by norm_num,
      Nat.and_pow_two_sub_one_eq_mod, Nat.shiftRight_eq_div_pow]
    norm_num
    omega

end Citp.Points

/-! ## Content-type tags and layer headers -/

namespace Citp

/-- A 4-byte ASCII tag as the `u32` obtained from its little-endian bytes. -/
def leTag (b0 b1 b2 b3 : Nat) : Nat := b0 + b1 * 256 + b2 * 65536 + b3 * 16777216

/-- ASCII "CITP" (the base header cookie). -/
def citpCookie : Nat := leTag 67 73 84 80

/-- ASCII "PINF". -/
def pinfTag : Nat := leTag 80 73 78 70

/-- ASCII "SDMX". -/
def sdmxTag : Nat := leTag 83 68 77 88

/-- ASCII "CAEX". -/
def caexTag : Nat := leTag 67 65 69 88

/-- ASCII "PNam". -/
def pnamTag : Nat := leTag 80 78 97 109

/-- ASCII "PLoc". -/
def plocTag : Nat := leTag 80 76 111 99

/-- ASCII "Capa". -/
def capaTag : Nat := leTag 67 97 112 97

end Citp

namespace Citp.Pinf

/-- `pinf::Header`: the base CITP header followed by the PINF message tag. -/
structure Header where
  citpHeader : Citp.Header
  contentType : Nat
deriving DecidableEq

/-- `impl WriteToBytes for pinf::Header`. -/
def Header.writeToBytes (h : Header) : List Nat :=
  h.citpHeader.writeToBytes ++ writeU32le h.contentType

end Citp.Pinf

namespace Citp.Caex

/-- `caex::Header`: the base CITP header followed by the CAEX message tag. -/
structure Header where
  citpHeader : Citp.Header
  contentType : Nat
deriving DecidableEq

/-- `impl WriteToBytes for caex::Header`. -/
def Header.writeToBytes (h : Header) : List Nat :=
  h.citpHeader.writeToBytes ++ writeU32le h.contentType

/-- `Nack::CONTENT_TYPE`. -/
def nackContentType : Nat := 0xFFFFFFFF

/-- `GetLaserFeedList::CONTENT_TYPE`. -/
def getLaserFeedListContentType : Nat := 0x00030100

/-- `LaserFeedList::CONTENT_TYPE`. -/
def laserFeedListContentType : Nat := 0x00030101

/-- `LaserFeedControl::CONTENT_TYPE`. -/
def laserFeedControlContentType : Nat := 0x00030102

/-- `LaserFeedFrame::CONTENT_TYPE`. -/
def laserFeedFrameContentType : Nat := 0x00030200

/-- `EnterShow::CONTENT_TYPE`. -/
def enterShowContentType : Nat := 0x00020100

/-- `LeaveShow::CONTENT_TYPE`. -/
def leaveShowContentType : Nat := 0x00020101

/-- `FixtureListRequest::CONTENT_TYPE`. -/
def fixtureListRequestContentType : Nat := 0x00020200

/-- `FixtureList::CONTENT_TYPE`. -/
def fixtureListContentType : Nat := 0x00020201

/-- `FixtureRemove::CONTENT_TYPE`. -/
def fixtureRemoveContentType : Nat := 0x00020203

/-- `FixtureConsoleStatus::CONTENT_TYPE`. -/
def fixtureConsoleStatusContentType : Nat := 0x00020400

end Citp.Caex

/-! ## The demo example (`examples/demo/demo.rs`, `examples/demo/citp_tcp.rs`) -/

namespace Citp.Demo

/-- `demo::CITP_HEADER_LEN`. -/
def CITP_HEADER_LEN : Nat := 20

/-- `demo::CONTENT_TYPE_LEN`. -/
def CONTENT_TYPE_LEN : Nat := 4

/-- `demo::layer_two_content_type`: reads the 4-byte tag at
`data[header_size..header_size + 4]` as a little-endian `u32`; `none` models
the slice-indexing panic when fewer than `header_size + 4` bytes are present. -/
def layerTwoContentType (data : List Nat) (headerSize : Nat) : Option Nat :=
  match data.drop headerSize with
  | b0 :: b1 :: b2 :: b3 :: _ => some (b0 + b1 * 256 + b2 * 65536 + b3 * 16777216)
  | _ => none

/-- `citp_tcp::CaexState`. -/
inductive CaexState : Type where
  | Nack
  | GetLaserFeedList
  | LaserFeedList
  | LaserFeedControl
  | LaserFeedFrame
  | EnterShow
  | LeaveShow
  | FixtureListRequest
  | FixtureList
  | FixtureRemove
  | FixtureConsoleStatus
deriving DecidableEq

/-- Outcome of one `CitpTcp::read_message` call: either some Rust panic
(`unwrap` on a failed decode, slice indexing, `Vec::drain` out of range, or
the explicit `panic!` on an unrecognized layer tag), or normal completion with
the returned `Option<CaexState>` and the number of bytes consumed from the
reader's buffer. -/
inductive ReadOutcome : Type where
  | panicked
  | ok (caexState : Option CaexState) (consumed : Nat)
deriving DecidableEq

/-- The two-level content-type dispatch in `CitpTcp::read_message`: given the
envelope tag, the secondary tag and the payload slice
(`&received[read_offset..]`), produce `some state` on normal completion and
`none` when a payload `.unwrap()` panics or the envelope tag is unrecognized
(the `panic!("Un recognized TCP Header")` arm). -/
def dispatch (contentType mct : Nat) (payload : List Nat) : Option (Option CaexState) :=
  if contentType = pinfTag then
    if mct = pnamTag then
      match Pinf.PNam.readFromBytes payload with
      | .ok _ _ => some none
      | _ => none
    else if mct = plocTag then
      match Pinf.PLoc.readFromBytes payload with
      | .ok _ _ => some none
      | _ => none
    else some none
  else if contentType = sdmxTag then
    if mct = capaTag then
      match Sdmx.Capa.readFromBytes payload with
      | .ok _ _ => some none
      | _ => none
    else some none
  else if contentType = caexTag then
    if mct = Caex.nackContentType then some none
    else if mct = Caex.getLaserFeedListContentType then some (some .GetLaserFeedList)
    else if mct = Caex.laserFeedListContentType then some none
    else if mct = Caex.laserFeedControlContentType then
      match Caex.LaserFeedControl.readFromBytes payload with
      | .ok _ _ => some (some .LaserFeedControl)
      | _ => none
    else if mct = Caex.laserFeedFrameContentType then some none
    else if mct = Caex.enterShowContentType then
      match Caex.EnterShow.readFromBytes payload with
      | .ok _ _ => some (some .EnterShow)
      | _ => none
    else if mct = Caex.leaveShowContentType then some (some .LeaveShow)
    else if mct = Caex.fixtureListRequestContentType then some (some .FixtureListRequest)
    else if mct = Caex.fixtureListContentType then
      match Caex.FixtureList.readFromBytes payload with
      | .ok _ _ => some none
      | _ => none
    else if mct = Caex.fixtureRemoveContentType then some none
    else if mct = Caex.fixtureConsoleStatusContentType then some none
    else some none
  else none

/-- `CitpTcp::read_message` on the bytes currently buffered (`fill_buf`'s
view).  The source's `while` loop ends its first iteration with `break`, so at
most one message is processed per call; the call then `consume`s
`header.message_size` bytes.  A buffer shorter than the envelope header makes
`Header::read_from_bytes(...).unwrap()` panic; one shorter than 24 bytes makes
the `layer_two_content_type` slice panic; and one shorter than `message_size`
makes `received.drain(message_size..)` panic. -/
def readMessage (received : List Nat) : ReadOutcome :=
  if received = [] then .ok none 0
  else
    match Header.readFromBytes received with
    | .ok hd _ =>
        match layerTwoContentType received CITP_HEADER_LEN with
        | none => .panicked
        | some mct =>
            match dispatch hd.contentType mct
                (received.drop (CITP_HEADER_LEN + CONTENT_TYPE_LEN)) with
            | none => .panicked
            | some st =>
                if hd.messageSize ≤ received.length then .ok st hd.messageSize
                else .panicked
    | _ => .panicked

/-- `demo::State`. -/
inductive DemoState : Type where
  | Init
  | Connect
  | Request
  | Stream
deriving DecidableEq

/-- Outcome of the `State::Connect` arm of `main` on one received datagram. -/
inductive ConnectOutcome : Type where
  /-- A decode error propagated out of `main` by `?`. -/
  | ioError
  /-- The `layer_two_content_type` slice panic. -/
  | panicked
  /-- No connection attempt: unrecognized UDP header content type, or a PINF
  message other than PLoc. -/
  | ignored
  /-- `TcpStream::connect` is reached with this `listening_tcp_port`. -/
  | connectAttempt (port : Nat)
deriving DecidableEq

/-- The `State::Connect` arm of `demo::main`: decode the base header, and on a
PINF/PLoc message connect to the announced peer — using
`ploc.listening_tcp_port` as the port, without inspecting its value. -/
def connectStep (data : List Nat) : ConnectOutcome :=
  match Header.readFromBytes data with
  | .ok hd _ =>
      if hd.contentType = pinfTag then
        match layerTwoContentType data CITP_HEADER_LEN with
        | none => .panicked
        | some mct =>
            if mct = plocTag then
              match Pinf.PLoc.readFromBytes
                  (data.drop (CITP_HEADER_LEN + CONTENT_TYPE_LEN)) with
              | .ok ploc _ => .connectAttempt ploc.listeningTcpPort
              | _ => .ioError
            else .ignored
      else .ignored
  | _ => .ioError

/-- `demo::pinf_header`. -/
def pinfHeaderFn (pinfMessageSize contentType : Nat) : Pinf.Header :=
  ⟨⟨citpCookie, 1, 0, 0, CITP_HEADER_LEN + CONTENT_TYPE_LEN + pinfMessageSize, 1, 0,
    pinfTag⟩, contentType⟩

/-- `demo::caex_header`. -/
def caexHeaderFn (caexMessageSize contentType : Nat) : Caex.Header :=
  ⟨⟨citpCookie, 1, 0, 0, CITP_HEADER_LEN + CONTENT_TYPE_LEN + caexMessageSize, 1, 0,
    caexTag⟩, contentType⟩

/-- The `PLoc` payload built by `demo::peer_location`: `listening_tcp_port`
is 0 ("Rusty Previz Tool" does not listen), kind "LightingConsole", state
"Firing ze lasers". -/
def peerLocationPLoc : Pinf.PLoc :=
  { listeningTcpPort := 0,
    kind := [76, 105, 103, 104, 116, 105, 110, 103, 67, 111, 110, 115, 111, 108, 101],
    name := [82, 117, 115, 116, 121, 32, 80, 114, 101, 118, 105, 122, 32, 84, 111, 111, 108],
    state := [70, 105, 114, 105, 110, 103, 32, 122, 101, 32, 108, 97, 115, 101, 114, 115] }

/-- The framed `PINF/PLoc` datagram that `demo::send_peer_location`
multicasts: the PINF layer header followed by the `PLoc` payload. -/
def peerLocationMessageBytes : List Nat :=
  (pinfHeaderFn peerLocationPLoc.sizeBytes plocTag).writeToBytes ++
    peerLocationPLoc.writeToBytes

/-- The `EnterShow` payload built by `demo::enter_show("kortex-test-suite")`. -/
def enterShowResponse : Caex.EnterShow :=
  ⟨[107, 111, 114, 116, 101, 120, 45, 116, 101, 115, 116, 45, 115, 117, 105, 116, 101]⟩

/-- The framed `CAEX/EnterShow` message written in the `EnterShow` branch of
the `State::Request` arm. -/
def enterShowResponseBytes : List Nat :=
  (caexHeaderFn enterShowResponse.sizeBytes Caex.enterShowContentType).writeToBytes ++
    enterShowResponse.writeToBytes

/-- The `LaserFeedList` built by `demo::send_laser_feed_list` (one feed,
"rusty_laser 0"). -/
def laserFeedListResponse (sourceKey : Nat) : Caex.LaserFeedList :=
  ⟨sourceKey, 1, [[114, 117, 115, 116, 121, 95, 108, 97, 115, 101, 114, 32, 48]]⟩

/-- The framed `CAEX/LaserFeedList` message written in the `GetLaserFeedList`
branch of the `State::Request` arm. -/
def laserFeedListResponseBytes (sourceKey : Nat) : List Nat :=
  (caexHeaderFn (laserFeedListResponse sourceKey).sizeBytes
      Caex.laserFeedListContentType).writeToBytes ++
    (laserFeedListResponse sourceKey).writeToBytes

/-- The `FixtureList` built by `demo::new_fixture_list`: an existing-patch
list with no fixtures. -/
def newFixtureList : Caex.FixtureList := ⟨.ExistingPatchList, 0, []⟩

/-- The framed `CAEX/FixtureList` message written in the `FixtureListRequest`
branch of the `State::Request` arm.  (`FixtureList::write_to_bytes` cannot
fail for this value; the `getD` default is never taken.) -/
def fixtureListResponseBytes : List Nat :=
  (caexHeaderFn newFixtureList.sizeBytes Caex.fixtureListContentType).writeToBytes ++
    (Caex.FixtureList.writeToBytes newFixtureList).getD []

/-- What one iteration of the `State::Request` arm does after
`read_message` returned the given state: the framed messages written to the
TCP stream, and the next session state.  (The unconditional
`send_peer_location` at the top of the arm is a UDP multicast send, not a TCP
write.) -/
structure RequestOutcome where
  tcpSends : List (List Nat)
  nextState : DemoState
deriving DecidableEq

/-- The `State::Request` arm of `demo::main` (after its `read_message` call):
each of the three `if let` branches matches exactly one `CaexState`. -/
def requestStep (sourceKey : Nat) (cs : Option CaexState) : RequestOutcome :=
  match cs with
  | some .EnterShow => ⟨[enterShowResponseBytes], .Request⟩
  | some .GetLaserFeedList => ⟨[laserFeedListResponseBytes sourceKey], .Request⟩
  | some .FixtureListRequest => ⟨[fixtureListResponseBytes], .Stream⟩
  | _ => ⟨[], .Request⟩

/-- A framed `CAEX/LeaveShow` message (24 bytes, no payload). -/
def leaveShowMessageBytes : List Nat :=
  (caexHeaderFn 0 Caex.leaveShowContentType).writeToBytes

end Citp.Demo

/-! ## Claim theorems -/

namespace Citp

/-- C1: the claim states that `size_bytes(value)` equals the length of the
byte sequence produced by `write_to_bytes(value)` for every payload value of
every message type.  The code violates this: `sdmx::ChLs::size_bytes` counts
`mem::size_of::<ChannelLevel>()` = 6 bytes per element while the encoder
emits 4; `fptc::UPtc::size_bytes` and `fptc::SPtc::size_bytes` omit the
2-byte count prefix that their encoders emit; and
`caex::Identifier::size_bytes` counts `data.len()` bytes while the encoder
emits `data_size` bytes.  This theorem evaluates the code at the failing
inputs. -/
theorem citp_C1_sizeBytes_vs_encoded_length :
    Sdmx.ChLs.sizeBytes ⟨[⟨0, 0, 0⟩]⟩ = 8 ∧
      (Sdmx.ChLs.writeToBytes ⟨[⟨0, 0, 0⟩]⟩).length = 6 ∧
      Fptc.UPtc.sizeBytes ⟨[]⟩ = 0 ∧
      (Fptc.UPtc.writeToBytes ⟨[]⟩).length = 2 ∧
      Fptc.SPtc.sizeBytes ⟨[]⟩ = 0 ∧
      (Fptc.SPtc.writeToBytes ⟨[]⟩).length = 2 ∧
      Caex.Identifier.sizeBytes ⟨.RDMDeviceModelId, 0, [7]⟩ = 4 ∧
      Caex.Identifier.writeToBytes ⟨.RDMDeviceModelId, 0, [7]⟩ = some [0, 0, 0] := by
  decide

/-- C3: the claim states that the TCP frame reader dispatches every complete
buffered message on one read step (three complete messages in one read give
three dispatches) and never processes a message while fewer than its declared
`message_size` bytes are buffered.  The code violates both parts: the `while`
loop in `CitpTcp::read_message` executes `break` at the end of its first
iteration, so a buffer holding three complete 24-byte `CAEX/LeaveShow`
messages yields exactly one dispatched message and consumes only 24 of the 72
bytes; and a buffer holding only a prefix of a message (1 byte, or 21 bytes)
makes the reader panic (`unwrap` on the header decode, or the
`layer_two_content_type` slice) instead of waiting for more data. -/
theorem citp_C3_frame_reader_processes_one_message_and_panics_on_fragments :
    Demo.readMessage
        (Demo.leaveShowMessageBytes ++ Demo.leaveShowMessageBytes ++
          Demo.leaveShowMessageBytes) = .ok (some .LeaveShow) 24 ∧
      (Demo.leaveShowMessageBytes ++ Demo.leaveShowMessageBytes ++
        Demo.leaveShowMessageBytes).length = 72 ∧
      Demo.readMessage (Demo.leaveShowMessageBytes.take 1) = .panicked ∧
      Demo.readMessage (Demo.leaveShowMessageBytes.take 21) = .panicked := by
  decide

/-- C5: packing a coordinate pair in [0, 4093] × [0, 4093] into
(x low byte, y low byte, shared high nibbles) and unpacking with the
documented formulas is the identity, and packing a 5/6/5-bit colour triple
into the 16-bit word `r | g.rotate_left(5) | b.rotate_left(11)` and unpacking
with the documented masks is the identity. -/
theorem citp_C5_point_codec_inverse :
    (∀ x y : Nat, x ≤ 4093 → y ≤ 4093 →
      Points.unpackX (x % 256) (Points.packXYHighNibbles x y) = x ∧
        Points.unpackY (y % 256) (Points.packXYHighNibbles x y) = y) ∧
      (∀ r g b : Nat, r ≤ 31 → g ≤ 63 → b ≤ 31 →
        Points.unpackR (Points.packColor r g b) = r ∧
          Points.unpackG (Points.packColor r g b) = g ∧
          Points.unpackB (Points.packColor r g b) = b) :=
  ⟨Points.coords_roundtrip, Points.color_roundtrip⟩

/-- Witness for C5 at the concrete corner inputs (4093, 300) and
(31, 63, 0). -/
theorem citp_C5_point_codec_inverse_witness :
    (Points.unpackX (4093 % 256) (Points.packXYHighNibbles 4093 300) = 4093 ∧
      Points.unpackY (300 % 256) (Points.packXYHighNibbles 4093 300) = 300) ∧
      (Points.unpackR (Points.packColor 31 63 0) = 31 ∧
        Points.unpackG (Points.packColor 31 63 0) = 63 ∧
        Points.unpackB (Points.packColor 31 63 0) = 0) :=
  ⟨citp_C5_point_codec_inverse.1 4093 300 (by decide) (by decide),
    citp_C5_point_codec_inverse.2 31 63 0 (by decide) (by decide) (by decide)⟩

/-- C7: the claim states that a received peer-location announcement with
`listening_tcp_port = 0` never causes a TCP connection attempt.  The code
violates this: the `State::Connect` arm of `demo::main` calls
`TcpStream::connect` with the announced port without inspecting it, so the
demo's own port-0 `PLoc` announcement triggers a connection attempt to
port 0.  This theorem evaluates the code at that failing input. -/
theorem citp_C7_port_zero_triggers_connect_attempt :
    Demo.peerLocationPLoc.listeningTcpPort = 0 ∧
      Demo.connectStep Demo.peerLocationMessageBytes = .connectAttempt 0 := by
  decide

/-- C8: receiving a framed fixture-list-request in the `Request` state makes
the demo write exactly one framed `CAEX/FixtureList` response to the TCP
stream and transition to `Stream`.  The response bytes parse as an envelope
header with the CAEX tag and `message_size` 27 (= their total length),
followed by the `FixtureList` secondary tag. -/
theorem citp_C8_fixture_list_request_response :
    ∀ sourceKey : Nat,
      Demo.requestStep sourceKey (some .FixtureListRequest) =
          ⟨[Demo.fixtureListResponseBytes], .Stream⟩ ∧
        (Demo.requestStep sourceKey (some .FixtureListRequest)).tcpSends.length = 1 ∧
        Header.readFromBytes Demo.fixtureListResponseBytes =
          .ok ⟨citpCookie, 1, 0, 0, 27, 1, 0, caexTag⟩ [1, 2, 2, 0, 0, 0, 0] ∧
        Demo.layerTwoContentType Demo.fixtureListResponseBytes 20 =
          some Caex.fixtureListContentType ∧
        Demo.fixtureListResponseBytes.length = 27 := by
  intro sourceKey
  exact ⟨rfl, rfl, by decide, by decide, by decide⟩

/-- C9: encoding an envelope header always produces exactly 20 bytes — the
4-byte cookie, `version_major`, `version_minor`, the 2-byte correlation
(`Kind`), the 4-byte `message_size`, `part_count`, `part_index` and the
4-byte `content_type`, in that order, all multi-byte integers little-endian —
and `size_bytes` always returns 20. -/
theorem citp_C9_header_layout :
    ∀ h : Header,
      h.writeToBytes =
          [h.cookie % 256, h.cookie / 256 % 256, h.cookie / 65536 % 256,
            h.cookie / 16777216 % 256,
            h.versionMajor % 256, h.versionMinor % 256,
            h.requestIndex % 256, h.requestIndex / 256 % 256,
            h.messageSize % 256, h.messageSize / 256 % 256,
            h.messageSize / 65536 % 256, h.messageSize / 16777216 % 256,
            h.messagePartCount % 256, h.messagePartCount / 256 % 256,
            h.messagePart % 256, h.messagePart / 256 % 256,
            h.contentType % 256, h.contentType / 256 % 256,
            h.contentType / 65536 % 256, h.contentType / 16777216 % 256] ∧
        h.writeToBytes.length = 20 ∧ h.sizeBytes = 20 := by
  intro h
  refine ⟨?_, ?_, rfl⟩ <;>
    simp [Header.writeToBytes, writeU32le, writeU16le, writeU8]

/-- C10: decoding is not total — `FixtureList::read_from_bytes` panics
(`unreachable!`) on any buffer whose message-type byte is at least 3,
`Identifier::read_from_bytes` panics on any identifier-type byte of at least
6, and the `u8 -> NackReason` conversion panics on any byte of at least 4 —
so an `io::Error` is not the only possible outcome on malformed input. -/
theorem citp_C10_decoders_panic_on_malformed_input :
    (∀ (b : Nat) (rest : List Nat), 3 ≤ b → b < 256 →
      Caex.FixtureList.readFromBytes (b :: rest) = .panicked) ∧
      (∀ (b : Nat) (rest : List Nat), 6 ≤ b → b < 256 →
        Caex.Identifier.readFromBytes (b :: rest) = .panicked) ∧
      (∀ b : Nat, 4 ≤ b → b < 256 → Caex.NackReason.fromU8 b = none) := by
  refine ⟨?_, ?_, ?_⟩
  · intro b rest hb _
    unfold Caex.FixtureList.readFromBytes
    simp only [readU8, DResult.bind_ok]
    rw [show Caex.FixtureListMessageType.fromU8 b = none by
      unfold Caex.FixtureListMessageType.fromU8
      rw [if_neg (by omega), if_neg (by omega), if_neg (by omega)]]
  · intro b rest hb _
    unfold Caex.Identifier.readFromBytes
    simp only [readU8, DResult.bind_ok]
    rw [show Caex.IdentifierType.fromU8 b = none by
      unfold Caex.IdentifierType.fromU8
      rw [if_neg (by omega), if_neg (by omega), if_neg (by omega),
        if_neg (by omega), if_neg (by omega), if_neg (by omega)]]
  · intro b hb _
    unfold Caex.NackReason.fromU8
    rw [if_neg (by omega), if_neg (by omega), if_neg (by omega), if_neg (by omega)]

/-- Witness for C10 at the smallest panicking bytes 3, 6 and 4. -/
theorem citp_C10_decoders_panic_witness :
    Caex.FixtureList.readFromBytes [3] = .panicked ∧
      Caex.Identifier.readFromBytes [6] = .panicked ∧
      Caex.NackReason.fromU8 4 = none :=
  ⟨citp_C10_decoders_panic_on_malformed_input.1 3 [] (by decide) (by decide),
    citp_C10_decoders_panic_on_malformed_input.2.1 6 [] (by decide) (by decide),
    citp_C10_decoders_panic_on_malformed_input.2.2 4 (by decide) (by decide)⟩

end Citp

namespace Citp

/-- Helper: `dispatch` on the CAEX layer with an unrecognized secondary tag
falls through every branch to the benign `_ => ()` arm. -/
theorem dispatch_caex_unknown (mct : Nat) (payload : List Nat)
    (h1 : mct ≠ Caex.nackContentType)
    (h2 : mct ≠ Caex.getLaserFeedListContentType)
    (h3 : mct ≠ Caex.laserFeedListContentType)
    (h4 : mct ≠ Caex.laserFeedControlContentType)
    (h5 : mct ≠ Caex.laserFeedFrameContentType)
    (h6 : mct ≠ Caex.enterShowContentType)
    (h7 : mct ≠ Caex.leaveShowContentType)
    (h8 : mct ≠ Caex.fixtureListRequestContentType)
    (h9 : mct ≠ Caex.fixtureListContentType)
    (h10 : mct ≠ Caex.fixtureRemoveContentType)
    (h11 : mct ≠ Caex.fixtureConsoleStatusContentType) :
    Demo.dispatch caexTag mct payload = some none := by
  unfold Demo.dispatch
  rw [if_neg (by decide), if_neg (by decide), if_pos rfl, if_neg h1, if_neg h2,
    if_neg h3, if_neg h4, if_neg h5, if_neg h6, if_neg h7, if_neg h8, if_neg h9,
    if_neg h10, if_neg h11]

/-- Helper: `dispatch` on the PINF layer with an unrecognized secondary tag. -/
theorem dispatch_pinf_unknown (mct : Nat) (payload : List Nat)
    (h1 : mct ≠ pnamTag) (h2 : mct ≠ plocTag) :
    Demo.dispatch pinfTag mct payload = some none := by
  unfold Demo.dispatch
  rw [if_pos rfl, if_neg h1, if_neg h2]

/-- Helper: `dispatch` on the SDMX layer with an unrecognized secondary tag. -/
theorem dispatch_sdmx_unknown (mct : Nat) (payload : List Nat)
    (h1 : mct ≠ capaTag) :
    Demo.dispatch sdmxTag mct payload = some none := by
  unfold Demo.dispatch
  rw [if_neg (by decide), if_pos rfl, if_neg h1]

/-- Helper: when the dispatch is benign and at least `message_size` bytes are
buffered, `read_message` completes normally, returns no CAEX state, and
consumes exactly `message_size` bytes. -/
theorem readMessage_skips (received : List Nat) (hd : Header) (tl : List Nat)
    (mct : Nat) (hne : received ≠ [])
    (hread : Header.readFromBytes received = .ok hd tl)
    (hmct : Demo.layerTwoContentType received Demo.CITP_HEADER_LEN = some mct)
    (hsize : hd.messageSize ≤ received.length)
    (hdisp : Demo.dispatch hd.contentType mct
      (received.drop (Demo.CITP_HEADER_LEN + Demo.CONTENT_TYPE_LEN)) = some none) :
    Demo.readMessage received = .ok none hd.messageSize := by
  unfold Demo.readMessage
  rw [if_neg hne, hread]
  simp only
  rw [hmct]
  simp only
  rw [hdisp]
  simp only
  rw [if_pos hsize]

/-- C4 counterexample: the claim states that a buffer whose *envelope* header
carries an unrecognized content-type tag is processed without a fatal error.
The code instead hits `panic!("Un recognized TCP Header")`: a well-formed
24-byte message whose envelope tag is "XXXX" makes `read_message` panic. -/
theorem citp_C4_unknown_envelope_tag_is_fatal :
    Demo.readMessage
        (Header.writeToBytes ⟨citpCookie, 1, 0, 0, 24, 1, 0, leTag 88 88 88 88⟩ ++
          writeU32le 0) = .panicked := by
  decide

/-- C4 amended: only a buffer whose *secondary* header carries an
unrecognized message tag under a recognized layer tag (CAEX, PINF or SDMX) is
tolerated: `read_message` completes without error, reports no state (the
distinguishable "unknown" outcome) and consumes exactly `message_size` bytes,
leaving the rest of the stream in place; an unrecognized *envelope* tag
panics instead. -/
theorem citp_C4_amended_unknown_secondary_tag_skipped :
    (∀ (received : List Nat) (hd : Header) (tl : List Nat) (mct : Nat),
      received ≠ [] → Header.readFromBytes received = .ok hd tl →
      Demo.layerTwoContentType received Demo.CITP_HEADER_LEN = some mct →
      hd.messageSize ≤ received.length → hd.contentType = caexTag →
      mct ≠ Caex.nackContentType → mct ≠ Caex.getLaserFeedListContentType →
      mct ≠ Caex.laserFeedListContentType → mct ≠ Caex.laserFeedControlContentType →
      mct ≠ Caex.laserFeedFrameContentType → mct ≠ Caex.enterShowContentType →
      mct ≠ Caex.leaveShowContentType → mct ≠ Caex.fixtureListRequestContentType →
      mct ≠ Caex.fixtureListContentType → mct ≠ Caex.fixtureRemoveContentType →
      mct ≠ Caex.fixtureConsoleStatusContentType →
      Demo.readMessage received = .ok none hd.messageSize) ∧
      (∀ (received : List Nat) (hd : Header) (tl : List Nat) (mct : Nat),
        received ≠ [] → Header.readFromBytes received = .ok hd tl →
        Demo.layerTwoContentType received Demo.CITP_HEADER_LEN = some mct →
        hd.messageSize ≤ received.length → hd.contentType = pinfTag →
        mct ≠ pnamTag → mct ≠ plocTag →
        Demo.readMessage received = .ok none hd.messageSize) ∧
      (∀ (received : List Nat) (hd : Header) (tl : List Nat) (mct : Nat),
        received ≠ [] → Header.readFromBytes received = .ok hd tl →
        Demo.layerTwoContentType received Demo.CITP_HEADER_LEN = some mct →
        hd.messageSize ≤ received.length → hd.contentType = sdmxTag →
        mct ≠ capaTag →
        Demo.readMessage received = .ok none hd.messageSize) := by
  refine ⟨?_, ?_, ?_⟩
  · intro received hd tl mct hne hread hmct hsize hct h1 h2 h3 h4 h5 h6 h7 h8 h9 h10 h11
    exact readMessage_skips received hd tl mct hne hread hmct hsize
      (by rw [hct]; exact dispatch_caex_unknown mct _ h1 h2 h3 h4 h5 h6 h7 h8 h9 h10 h11)
  · intro received hd tl mct hne hread hmct hsize hct h1 h2
    exact readMessage_skips received hd tl mct hne hread hmct hsize
      (by rw [hct]; exact dispatch_pinf_unknown mct _ h1 h2)
  · intro received hd tl mct hne hread hmct hsize hct h1
    exact readMessage_skips received hd tl mct hne hread hmct hsize
      (by rw [hct]; exact dispatch_sdmx_unknown mct _ h1)

/-- Witness for the amended C4: a 24-byte CAEX message whose secondary tag
`0x00099999` is unknown is skipped with exactly its 24 declared bytes
consumed and no state reported. -/
theorem citp_C4_amended_witness :
    Demo.readMessage ((Demo.caexHeaderFn 0 0x00099999).writeToBytes) = .ok none 24 :=
  citp_C4_amended_unknown_secondary_tag_skipped.1
    ((Demo.caexHeaderFn 0 0x00099999).writeToBytes)
    ⟨citpCookie, 1, 0, 0, 24, 1, 0, caexTag⟩ [153, 153, 9, 0] 0x00099999
    (by decide) (by decide) (by decide) (by decide) (by decide) (by decide)
    (by decide) (by decide) (by decide) (by decide) (by decide) (by decide)
    (by decide) (by decide) (by decide) (by decide)

/-- C6 counterexample: the claim states that every length-prefixed collection
encoder rejects an element count exceeding its prefix field's range before
writing.  `fptc::UPtc::write_to_bytes` instead casts the length with
`as u16`: encoding 65536 identifiers emits a count prefix of 0 (65536 mod
2^16) followed by all 131072 element bytes — silent truncation, no error. -/
theorem citp_C6_uptc_oversize_truncated_not_rejected :
    (Fptc.UPtc.writeToBytes ⟨List.replicate 65536 1⟩).take 2 = [0, 0] ∧
      (Fptc.UPtc.writeToBytes ⟨List.replicate 65536 1⟩).length = 131074 := by
  constructor
  · show (writeU16le (List.replicate 65536 (1:Nat)).length ++
      (List.replicate 65536 (1:Nat)).flatMap writeU16le).take 2 = [0, 0]
    rw [List.length_replicate]
    rfl
  · show (writeU16le (List.replicate 65536 (1:Nat)).length ++
      (List.replicate 65536 (1:Nat)).flatMap writeU16le).length = 131074
    rw [List.length_append, flatMap_length_const writeU16le 2 _ (fun a _ => rfl),
      List.length_replicate]
    rfl

/-- C6 amended: of the length-prefixed collection encoders, only
`sdmx::Capa::write_to_bytes` rejects an oversize list with an error before
writing any bytes; the others (e.g. `fptc::UPtc::write_to_bytes`) write the
length modulo the prefix range and all elements, for every input. -/
theorem citp_C6_amended_only_capa_rejects_oversize :
    (∀ c : Sdmx.Capa, 65535 < c.capabilities.length →
      Sdmx.Capa.writeToBytes c = none) ∧
      (∀ c : Sdmx.Capa, c.capabilities.length ≤ 65535 →
        Sdmx.Capa.writeToBytes c =
          some (writeU16le c.capabilities.length ++
            c.capabilities.flatMap writeU16le)) ∧
      (∀ v : Fptc.UPtc,
        (Fptc.UPtc.writeToBytes v).length = 2 + 2 * v.fixtureIdentifiers.length) := by
  refine ⟨?_, ?_, ?_⟩
  · intro c h
    unfold Sdmx.Capa.writeToBytes
    rw [if_pos h]
  · intro c h
    unfold Sdmx.Capa.writeToBytes
    rw [if_neg (by omega)]
  · intro v
    unfold Fptc.UPtc.writeToBytes
    rw [List.length_append, flatMap_length_const writeU16le 2 _ (fun a _ => rfl)]
    simp [writeU16le]
    omega

/-- Witness for the amended C6 at a 65536-element capability list, a
one-element capability list and a one-element unpatch list. -/
theorem citp_C6_amended_witness :
    Sdmx.Capa.writeToBytes ⟨List.replicate 65536 0⟩ = none ∧
      Sdmx.Capa.writeToBytes ⟨[7]⟩ = some [1, 0, 7, 0] ∧
      (Fptc.UPtc.writeToBytes ⟨[1]⟩).length = 4 := by
  refine ⟨?_, ?_, ?_⟩
  · exact citp_C6_amended_only_capa_rejects_oversize.1 _
      (by rw [List.length_replicate]; norm_num)
  · exact (citp_C6_amended_only_capa_rejects_oversize.2.1 ⟨[7]⟩ (by norm_num)).trans
      (by decide)
  · exact (citp_C6_amended_only_capa_rejects_oversize.2.2 ⟨[1]⟩).trans (by norm_num)

end Citp

namespace Citp

/-- C2: decode-after-encode is the identity for every message type of the
embedding that has both an encoder and a decoder (`pinf::{PNam, PLoc}`,
`sdmx::{Capa, UNam, EnId, ChBk, ChannelLevel, ChLs, SXSr, Sxus}`,
`fptc::{Ptch, UPtc, SPtc}`, `fsel::{Sele, DeSe}`, `finf::{SFra, Fram}`,
`caex::{LaserFeedControl, EnterShow, FixtureRemove, Identifier, FixtureList}`
and the base `Header`), for every valid value: one whose numeric fields are
in range of their Rust integer types, whose count fields equal the lengths of
the corresponding collections (including empty ones), and whose text fields
are well-formed (`CString`s without interior nul, `Ucs2` with in-range
units — including length zero).  For `Capa` the encoder is fallible and the
round trip includes that it succeeds; for `Identifier` and `FixtureList` the
round trip holds for whatever bytes their fallible encoders produce. -/
theorem citp_C2_decode_encode_roundtrip :
    (∀ (h : Header) (rest : List Nat), h.wf →
      Header.readFromBytes (h.writeToBytes ++ rest) = .ok h rest) ∧
    (∀ (v : Pinf.PNam) (rest : List Nat), v.wf →
      Pinf.PNam.readFromBytes (v.writeToBytes ++ rest) = .ok v rest) ∧
    (∀ (v : Pinf.PLoc) (rest : List Nat), v.wf →
      Pinf.PLoc.readFromBytes (v.writeToBytes ++ rest) = .ok v rest) ∧
    (∀ (v : Sdmx.Capa) (rest : List Nat), v.wf →
      ∃ bs, v.writeToBytes = some bs ∧
        Sdmx.Capa.readFromBytes (bs ++ rest) = .ok v rest) ∧
    (∀ (v : Sdmx.UNam) (rest : List Nat), v.wf →
      Sdmx.UNam.readFromBytes (v.writeToBytes ++ rest) = .ok v rest) ∧
    (∀ (v : Sdmx.EnId) (rest : List Nat), v.wf →
      Sdmx.EnId.readFromBytes (v.writeToBytes ++ rest) = .ok v rest) ∧
    (∀ (v : Sdmx.ChBk) (rest : List Nat), v.wf →
      Sdmx.ChBk.readFromBytes (v.writeToBytes ++ rest) = .ok v rest) ∧
    (∀ (v : Sdmx.ChannelLevel) (rest : List Nat), v.wf →
      Sdmx.ChannelLevel.readFromBytes (v.writeToBytes ++ rest) = .ok v rest) ∧
    (∀ (v : Sdmx.ChLs) (rest : List Nat), v.wf →
      Sdmx.ChLs.readFromBytes (v.writeToBytes ++ rest) = .ok v rest) ∧
    (∀ (v : Sdmx.SXSr) (rest : List Nat), v.wf →
      Sdmx.SXSr.readFromBytes (v.writeToBytes ++ rest) = .ok v rest) ∧
    (∀ (v : Sdmx.Sxus) (rest : List Nat), v.wf →
      Sdmx.Sxus.readFromBytes (v.writeToBytes ++ rest) = .ok v rest) ∧
    (∀ (v : Fptc.Ptch) (rest : List Nat), v.wf →
      Fptc.Ptch.readFromBytes (v.writeToBytes ++ rest) = .ok v rest) ∧
    (∀ (v : Fptc.UPtc) (rest : List Nat), v.wf →
      Fptc.UPtc.readFromBytes (v.writeToBytes ++ rest) = .ok v rest) ∧
    (∀ (v : Fptc.SPtc) (rest : List Nat), v.wf →
      Fptc.SPtc.readFromBytes (v.writeToBytes ++ rest) = .ok v rest) ∧
    (∀ (v : Fsel.Sele) (rest : List Nat), v.wf →
      Fsel.Sele.readFromBytes (v.writeToBytes ++ rest) = .ok v rest) ∧
    (∀ (v : Fsel.DeSe) (rest : List Nat), v.wf →
      Fsel.DeSe.readFromBytes (v.writeToBytes ++ rest) = .ok v rest) ∧
    (∀ (v : Finf.SFra) (rest : List Nat), v.wf →
      Finf.SFra.readFromBytes (v.writeToBytes ++ rest) = .ok v rest) ∧
    (∀ (v : Finf.Fram) (rest : List Nat), v.wf →
      Finf.Fram.readFromBytes (v.writeToBytes ++ rest) = .ok v rest) ∧
    (∀ (v : Caex.LaserFeedControl) (rest : List Nat), v.wf →
      Caex.LaserFeedControl.readFromBytes (v.writeToBytes ++ rest) = .ok v rest) ∧
    (∀ (v : Caex.EnterShow) (rest : List Nat), v.wf →
      Caex.EnterShow.readFromBytes (v.writeToBytes ++ rest) = .ok v rest) ∧
    (∀ (v : Caex.FixtureRemove) (rest : List Nat), v.wf →
      Caex.FixtureRemove.readFromBytes (v.writeToBytes ++ rest) = .ok v rest) ∧
    (∀ (v : Caex.Identifier) (rest : List Nat), v.wf →
      ∀ bs, v.writeToBytes = some bs →
        Caex.Identifier.readFromBytes (bs ++ rest) = .ok v rest) ∧
    (∀ (v : Caex.FixtureList) (rest : List Nat), v.wf →
      ∀ bs, v.writeToBytes = some bs →
        Caex.FixtureList.readFromBytes (bs ++ rest) = .ok v rest) :=
  ⟨fun h rest hw => header_roundtrip h hw rest,
    fun v rest hw => Pinf.pnam_roundtrip v hw rest,
    fun v rest hw => Pinf.ploc_roundtrip v hw rest,
    fun v rest hw => ⟨_, (Sdmx.capa_roundtrip v hw rest).1, (Sdmx.capa_roundtrip v hw rest).2⟩,
    fun v rest hw => Sdmx.unam_roundtrip v hw rest,
    fun v rest hw => Sdmx.enid_roundtrip v hw rest,
    fun v rest hw => Sdmx.chbk_roundtrip v hw rest,
    fun v rest hw => Sdmx.channelLevel_roundtrip v hw rest,
    fun v rest hw => Sdmx.chls_roundtrip v hw rest,
    fun v rest hw => Sdmx.sxsr_roundtrip v hw rest,
    fun v rest hw => Sdmx.sxus_roundtrip v hw rest,
    fun v rest hw => Fptc.ptch_roundtrip v hw rest,
    fun v rest hw => Fptc.uptc_roundtrip v hw rest,
    fun v rest hw => Fptc.sptc_roundtrip v hw rest,
    fun v rest hw => Fsel.sele_roundtrip v hw rest,
    fun v rest hw => Fsel.dese_roundtrip v hw rest,
    fun v rest hw => Finf.sfra_roundtrip v hw rest,
    fun v rest hw => Finf.fram_roundtrip v hw rest,
    fun v rest hw => Caex.laserFeedControl_roundtrip v hw rest,
    fun v rest hw => Caex.enterShow_roundtrip v hw rest,
    fun v rest hw => Caex.fixtureRemove_roundtrip v hw rest,
    fun v rest hw bs hb => Caex.identifier_roundtrip v hw bs hb rest,
    fun v rest hw bs hb => Caex.fixtureList_roundtrip v hw bs hb rest⟩

/-- Witness for C2: the round trip evaluated at a concrete `PLoc` (nonzero
port, three one-byte strings) and at the concrete empty `FixtureList`. -/
theorem citp_C2_decode_encode_roundtrip_witness :
    Pinf.PLoc.readFromBytes
        (Pinf.PLoc.writeToBytes ⟨4809, [65], [66], [67]⟩ ++ [9]) =
      .ok ⟨4809, [65], [66], [67]⟩ [9] ∧
      Caex.FixtureList.readFromBytes ([0, 0, 0] ++ [5]) =
        .ok ⟨.ExistingPatchList, 0, []⟩ [5] := by
  obtain ⟨-, -, hPLoc, -, -, -, -, -, -, -, -, -, -, -, -, -, -, -, -, -, -, -, hFL⟩ :=
    citp_C2_decode_encode_roundtrip
  refine ⟨hPLoc ⟨4809, [65], [66], [67]⟩ [9] ?_, hFL ⟨.ExistingPatchList, 0, []⟩ [5] ?_ [0, 0, 0] ?_⟩
  · unfold Pinf.PLoc.wf cStringWf
    decide
  · exact ⟨rfl, by norm_num, fun f hf => absurd hf (List.not_mem_nil f)⟩
  · decide

end Citp
